import Mathlib

/-!
# birdflapgame: the per-frame simulation of `src/main.cpp`

A shallow embedding of the simulation part of `main.cpp` (body update, pipe
creation and scrolling, collision test, cloud placement, reset handling and the
per-frame callback), followed by theorems about it.

Conventions of the embedding:

* C++ `float` values are exact rationals (`ℚ`); no rounding is modelled.
* C++ `int` values are `Int`; the only wrap-around the source performs itself
  (`frameNumber == INT_MAX`) is kept, other overflow is not modelled.
* `rand()` is an input: every call site receives the drawn value as a `Nat`.
* `SDL_GetWindowSizeInPixels` is an input: the callbacks receive the pixel size.
* `x % 0` is undefined behaviour in C++; functions that can reach it return
  `Option` and yield `none` there.
* Window, renderer, audio device, fps bookkeeping and all draw calls are left
  out; the bird's current texture is kept as a three-valued tag.
-/

namespace BirdFlap

/-! ## Constants -/

def WINDOW_START_WIDTH : Int := 400
def WINDOW_START_HEIGHT : Int := 350
def PIXELS_FALLEN_PER_FRAME : ℚ := 5
def PIXELS_FLAPPED_MULTIPLIER : ℚ := 9 / 10
def FRAMES_PER_FLAP : Int := 17
def FRAMES_PER_PIPE : Int := 200
def PIXEL_SPACE_BETWEEN_PIPES : Int := 320
def PIXELS_MOVED_PER_FRAME_PIPES : ℚ := 2
def INT_MAX : Int := 2147483647

/-! ## Structs -/

/-- The texture a bird currently shows (`curTexture`); `null` is `nullptr`. -/
inductive BirdTexture where
  | null
  | birdTex1
  | birdTex2
  deriving DecidableEq

structure BirdContext where
  width : ℚ
  height : ℚ
  x_loc : ℚ
  y_loc : ℚ
  flapTimer : Int
  isFlapping : Bool
  isDead : Bool
  curTexture : BirdTexture
  deriving DecidableEq

structure PipeContext where
  x_top_loc : ℚ
  y_top_loc : ℚ
  x_bot_loc : ℚ
  y_bot_loc : ℚ
  deriving DecidableEq

structure SDL_FPoint where
  x : ℚ
  y : ℚ
  deriving DecidableEq

structure AppContext where
  frameNumber : Int
  score : Int
  bird : BirdContext
  floorHeight : ℚ
  pipes : List PipeContext
  cloudCenters : List SDL_FPoint
  deriving DecidableEq

inductive SDL_AppResult where
  | SDL_APP_CONTINUE
  | SDL_APP_SUCCESS
  | SDL_APP_FAILURE
  deriving DecidableEq

/-! ## Helper functions -/

/-- The C++ conversion `(int)f` of a float: truncation toward zero. -/
def floatToInt (f : ℚ) : Int := Int.tdiv f.num (f.den : Int)

/-- The C++ expression `a % b` on `int`: `none` when `b = 0`, else the remainder
of the division truncated toward zero. -/
def cMod (a b : Int) : Option Int :=
  if b = 0 then none else some (Int.tmod a b)

/-- Function `CreatePipe`, lines 158-169; `r` is the value returned by `rand()`. -/
def CreatePipe (app_width app_height floor_height : ℚ) (r : Nat) : Option PipeContext :=
  match cMod (r : Int)
      (floatToInt app_height - 3 * floatToInt floor_height - PIXEL_SPACE_BETWEEN_PIPES) with
  | none => none
  | some m =>
    let locationOffset : ℚ := (m : ℚ)
    some
      { x_top_loc := app_width
        y_top_loc := floor_height + locationOffset
        x_bot_loc := app_width
        y_bot_loc := floor_height + locationOffset + (PIXEL_SPACE_BETWEEN_PIPES : ℚ) }

/-- Function `BirdPipeCollision`, lines 171-179. -/
def BirdPipeCollision (pipe_x pipe_top pipe_bot : ℚ) (birdCtx : BirdContext) : Bool :=
  if birdCtx.x_loc + birdCtx.width ≥ pipe_x ∧ birdCtx.x_loc - birdCtx.width ≤ pipe_x then
    decide (birdCtx.y_loc - birdCtx.width ≤ pipe_top) ||
      decide (birdCtx.y_loc + birdCtx.width ≥ pipe_bot)
  else
    false

/-- The part of `UpdateBirdInfo` that moves the bird, lines 188-209. -/
def moveBird (bird : BirdContext) (floorHeight app_width app_height : ℚ) : BirdContext :=
  if bird.isFlapping then
    if bird.flapTimer = 0 then
      { bird with isFlapping := false, curTexture := BirdTexture.birdTex2 }
    else
      let bird1 := { bird with flapTimer := bird.flapTimer - 1 }
      let flappedPixels : ℚ := PIXELS_FLAPPED_MULTIPLIER * (bird1.flapTimer : ℚ)
      if bird1.y_loc > bird1.width / 2 + flappedPixels then
        { bird1 with y_loc := bird1.y_loc - flappedPixels }
      else
        bird1
  else
    let bird1 :=
      if bird.y_loc < app_height - floorHeight - bird.width / 2 then
        { bird with y_loc := bird.y_loc + PIXELS_FALLEN_PER_FRAME }
      else
        { bird with y_loc := app_height - floorHeight - bird.width / 2 }
    { bird1 with x_loc := app_width / 2 }

/-- The ground check of `UpdateBirdInfo`, lines 211-216. -/
def groundCheck (bird : BirdContext) (floorHeight app_height : ℚ) : BirdContext :=
  if bird.y_loc = app_height - floorHeight - bird.width / 2 then
    { bird with isDead := true }
  else
    bird

/-- The pipe loop of `UpdateBirdInfo`, lines 218-224: the first colliding pipe
sets `isDead` and ends the loop. -/
def pipeCheck (bird : BirdContext) : List PipeContext → BirdContext
  | [] => bird
  | pipeCtx :: rest =>
    if BirdPipeCollision pipeCtx.x_bot_loc pipeCtx.y_top_loc pipeCtx.y_bot_loc bird then
      { bird with isDead := true }
    else
      pipeCheck bird rest

/-- Function `UpdateBirdInfo`, lines 182-227. -/
def UpdateBirdInfo (app : AppContext) (app_width app_height : ℚ) : AppContext :=
  if app.bird.isDead then
    app
  else
    let bird1 := moveBird app.bird app.floorHeight app_width app_height
    let bird2 := groundCheck bird1 app.floorHeight app_height
    { app with bird := pipeCheck bird2 app.pipes }

/-- The body of the loop of `UpdatePipeLocations` on one pipe, lines 232-233. -/
def shiftPipe (pipeCtx : PipeContext) : PipeContext :=
  { pipeCtx with
    x_bot_loc := pipeCtx.x_bot_loc - PIXELS_MOVED_PER_FRAME_PIPES
    x_top_loc := pipeCtx.x_top_loc - PIXELS_MOVED_PER_FRAME_PIPES }

/-- The crossing test of `UpdatePipeLocations`, lines 235-236, on a pipe that has
already been shifted. -/
def crossesMiddle (app_width : ℚ) (pipeCtx : PipeContext) : Bool :=
  decide (pipeCtx.x_bot_loc ≤ app_width / 2) &&
    decide (pipeCtx.x_bot_loc > app_width / 2 - PIXELS_MOVED_PER_FRAME_PIPES)

/-- The loop of `UpdatePipeLocations`, lines 231-239: shifts every pipe and
counts the crossings into the score. -/
def scrollPipes (app_width : ℚ) : List PipeContext → Int → List PipeContext × Int
  | [], score => ([], score)
  | pipeCtx :: rest, score =>
    let moved := shiftPipe pipeCtx
    let score1 := if crossesMiddle app_width moved then score + 1 else score
    let r := scrollPipes app_width rest score1
    (moved :: r.1, r.2)

/-- The retirement step of `UpdatePipeLocations`, lines 241-244. -/
def retireFront (pipes : List PipeContext) (birdWidth : ℚ) : List PipeContext :=
  match pipes with
  | [] => []
  | front :: rest => if front.x_top_loc < -birdWidth then rest else front :: rest

/-- Function `UpdatePipeLocations`, lines 229-247. -/
def UpdatePipeLocations (app : AppContext) (app_width _app_height : ℚ) : AppContext :=
  let r := scrollPipes app_width app.pipes app.score
  { app with score := r.2, pipes := retireFront r.1 app.bird.width }

/-- One pass of the `while` loop of `GenerateClouds` tests the candidate against
every accepted centre, lines 264-272. -/
def isOverlapping (radiusSquared : ℚ) (potentialLoc : SDL_FPoint) : List SDL_FPoint → Bool
  | [] => false
  | center :: rest =>
    let x_diff := center.x - potentialLoc.x
    let y_diff := center.y - potentialLoc.y
    if x_diff * x_diff + y_diff * y_diff < radiusSquared then true
    else isOverlapping radiusSquared potentialLoc rest

/-- The `while` loop of `GenerateClouds`, lines 259-278. Every pass reads two
values of `rand()` from `draws`; the result is `none` when a modulus is zero or
when the draws are used up before `curCloudCount` reaches `numClouds` (the run
has not completed on these draws). -/
def cloudLoop (app_width app_height : Int) (radiusSquared : ℚ) (numClouds : Int) :
    List Nat → Int → List SDL_FPoint → Option (List SDL_FPoint)
  | [], curCloudCount, centers => if curCloudCount = numClouds then some centers else none
  | [_], curCloudCount, centers => if curCloudCount = numClouds then some centers else none
  | rx :: ry :: rest, curCloudCount, centers =>
    if curCloudCount = numClouds then some centers
    else
      match cMod (rx : Int) app_width, cMod (ry : Int) (Int.tdiv app_height 4 * 3) with
      | some px, some py =>
        let potentialLoc : SDL_FPoint := { x := (px : ℚ), y := (py : ℚ) }
        if isOverlapping radiusSquared potentialLoc centers then
          cloudLoop app_width app_height radiusSquared numClouds rest curCloudCount centers
        else
          cloudLoop app_width app_height radiusSquared numClouds rest (curCloudCount + 1)
            (centers ++ [potentialLoc])
      | _, _ => none

/-- Function `GenerateClouds`, lines 253-281. The first draw fixes `numClouds`, the
others feed the loop. -/
def GenerateClouds (app : AppContext) (app_width app_height : Int) :
    List Nat → Option AppContext
  | [] => none
  | r0 :: draws =>
    let numClouds : Int := 2 + Int.tmod (r0 : Int) 2
    let radiusSquared : ℚ := 15 * app.bird.width * app.bird.width
    match cloudLoop app_width app_height radiusSquared numClouds draws 0 app.cloudCenters with
    | none => none
    | some centers => some { app with cloudCenters := centers }

/-! ## Initialization -/

/-- The `AppContext` that `SDL_AppInit` holds just before it calls
`GenerateClouds` (lines 404-440): counters at zero, the bird at the centre of
the pixel size with the texture size as its width and height, no pipes, no
clouds. The floor height is a parameter here; `SDL_AppInit` passes
`min (bbheight / 20) 50`. -/
def startContext (bbwidth bbheight : Int) (texWidth texHeight floorHeight : ℚ) : AppContext :=
  { frameNumber := 0
    score := 0
    bird :=
      { width := texWidth
        height := texHeight
        x_loc := (bbwidth : ℚ) / 2
        y_loc := (bbheight : ℚ) / 2
        flapTimer := 0
        isFlapping := false
        isDead := false
        curTexture := BirdTexture.birdTex2 }
    floorHeight := floorHeight
    pipes := []
    cloudCenters := [] }

/-- Function `SDL_AppInit`, lines 359-452, on the path where every SDL call succeeds.
`texWidth` and `texHeight` are what `SDL_GetTextureSize` reports for the bird
texture and `draws` are the values of `rand()`. -/
def SDL_AppInit (bbwidth bbheight : Int) (texWidth texHeight : ℚ) (draws : List Nat) :
    Option AppContext :=
  GenerateClouds
    (startContext bbwidth bbheight texWidth texHeight (min ((bbheight : ℚ) / 20) 50))
    bbwidth bbheight draws

/-! ## Event handler -/

inductive SDL_Keycode where
  | SDLK_SPACE
  | SDLK_ESCAPE
  | SDLK_R
  | SDLK_OTHER
  deriving DecidableEq

inductive SDL_Event where
  | SDL_EVENT_QUIT
  | SDL_EVENT_KEY_DOWN (key : SDL_Keycode)
  | SDL_EVENT_OTHER
  deriving DecidableEq

/-- Function `SDL_AppEvent`, lines 463-503. `app_width` and `app_height` are what
`SDL_GetWindowSizeInPixels` reports when the reset branch asks for it. -/
def SDL_AppEvent (app : AppContext) (event : SDL_Event) (app_width app_height : Int) :
    SDL_AppResult × AppContext :=
  match event with
  | SDL_Event.SDL_EVENT_QUIT => (SDL_AppResult.SDL_APP_SUCCESS, app)
  | SDL_Event.SDL_EVENT_KEY_DOWN SDL_Keycode.SDLK_SPACE =>
    if app.bird.flapTimer ≤ 3 ∧ app.bird.isDead = false then
      (SDL_AppResult.SDL_APP_CONTINUE,
        { app with
          bird :=
            { app.bird with
              isFlapping := true
              curTexture := BirdTexture.birdTex1
              flapTimer := FRAMES_PER_FLAP } })
    else
      (SDL_AppResult.SDL_APP_CONTINUE, app)
  | SDL_Event.SDL_EVENT_KEY_DOWN SDL_Keycode.SDLK_ESCAPE => (SDL_AppResult.SDL_APP_SUCCESS, app)
  | SDL_Event.SDL_EVENT_KEY_DOWN SDL_Keycode.SDLK_R =>
    if app.bird.isDead then
      (SDL_AppResult.SDL_APP_CONTINUE,
        { app with
          bird :=
            { app.bird with
              x_loc := (app_width : ℚ) / 2
              y_loc := (app_height : ℚ) / 2
              isDead := false }
          score := 0
          frameNumber := 0
          pipes := [] })
    else
      (SDL_AppResult.SDL_APP_CONTINUE, app)
  | SDL_Event.SDL_EVENT_KEY_DOWN SDL_Keycode.SDLK_OTHER => (SDL_AppResult.SDL_APP_CONTINUE, app)
  | SDL_Event.SDL_EVENT_OTHER => (SDL_AppResult.SDL_APP_CONTINUE, app)

/-! ## Per-frame callback -/

/-- The frame counter step of `SDL_AppIterate`, lines 572-576. -/
def nextFrameNumber (frameNumber : Int) : Int :=
  if frameNumber = INT_MAX then 0 else frameNumber + 1

/-- The state changes of `SDL_AppIterate`, lines 509-604: the frame counter
step, then, when the bird is alive, `UpdateBirdInfo`, `UpdatePipeLocations` and
the spawn of a pipe on every `FRAMES_PER_PIPE`-th frame. `r` is the value
`rand()` returns if `CreatePipe` is called. -/
def SDL_AppIterate (app : AppContext) (app_width app_height : Int) (r : Nat) :
    Option AppContext :=
  let app1 := { app with frameNumber := nextFrameNumber app.frameNumber }
  if app1.bird.isDead = false then
    let app2 := UpdateBirdInfo app1 (app_width : ℚ) (app_height : ℚ)
    let app3 := UpdatePipeLocations app2 (app_width : ℚ) (app_height : ℚ)
    if Int.tmod app3.frameNumber FRAMES_PER_PIPE = 0 then
      match CreatePipe (app_width : ℚ) (app_height : ℚ) app3.floorHeight r with
      | none => none
      | some pipe => some { app3 with pipes := app3.pipes ++ [pipe] }
    else
      some app3
  else
    some app1

/-! ## Runs -/

/-- What the environment delivers to the callbacks: a frame (pixel size and the
value `rand()` would return) or an event (with the pixel size the handler may
ask for). -/
inductive Input where
  | frame (app_width app_height : Int) (r : Nat)
  | event (e : SDL_Event) (app_width app_height : Int)
  deriving DecidableEq

/-- The callbacks applied to a sequence of inputs. A callback that returns
`SDL_APP_SUCCESS` ends the program, so the inputs after it are not handled. -/
def run : AppContext → List Input → Option AppContext
  | app, [] => some app
  | app, Input.frame w h r :: rest =>
    match SDL_AppIterate app w h r with
    | none => none
    | some app1 => run app1 rest
  | app, Input.event e w h :: rest =>
    match SDL_AppEvent app e w h with
    | (SDL_AppResult.SDL_APP_CONTINUE, app1) => run app1 rest
    | (_, app1) => some app1

/-! ## Predicates and concrete states used in the theorems -/

/-- The bird of the default window (texture 30 by 20) at the centre. -/
def centreBird : BirdContext :=
  { width := 30, height := 20, x_loc := 200, y_loc := 175, flapTimer := 0,
    isFlapping := false, isDead := false, curTexture := BirdTexture.birdTex2 }

/-- A state after a death on the floor of the default window: frame 57, score 3,
one pipe still on screen and two clouds. -/
def deadExample : AppContext :=
  { frameNumber := 57
    score := 3
    bird := { centreBird with y_loc := 635 / 2, flapTimer := 2, isFlapping := true, isDead := true }
    floorHeight := 35 / 2
    pipes := [{ x_top_loc := 120, y_top_loc := 40, x_bot_loc := 120, y_bot_loc := 360 }]
    cloudCenters := [{ x := 10, y := 20 }, { x := 300, y := 100 }] }

/-- The reset input: the key-down event of the R key. -/
def isResetInput : Input → Bool
  | Input.event (SDL_Event.SDL_EVENT_KEY_DOWN SDL_Keycode.SDLK_R) _ _ => true
  | _ => false

/-- A live square bird (30 by 30) of the default window standing exactly on the
floor clamp value `350 - 17.5 - 15 = 317.5`, just after a flap input (`flapTimer = 17`). -/
def flapAtFloor : AppContext :=
  { frameNumber := 57
    score := 0
    bird :=
      { width := 30, height := 30, x_loc := 200, y_loc := 635 / 2, flapTimer := 17,
        isFlapping := true, isDead := false, curTexture := BirdTexture.birdTex1 }
    floorHeight := 35 / 2
    pipes := []
    cloudCenters := [] }

/-- The same bird in falling mode. -/
def fallAtFloor : AppContext :=
  { flapAtFloor with
    bird := { flapAtFloor.bird with flapTimer := 0, isFlapping := false,
                                    curTexture := BirdTexture.birdTex2 } }

/-- A live falling 30 by 20 bird of the default window at the height-based value
`350 - 17.5 - 20/2 = 322.5`. -/
def fallAtHeightClamp : AppContext :=
  { frameNumber := 57
    score := 0
    bird := { centreBird with y_loc := 645 / 2 }
    floorHeight := 35 / 2
    pipes := []
    cloudCenters := [] }

/-- A frame at the pixel size `app_width` by `app_height`, or a flap input
(key-down of the space bar). -/
def isFrameOrFlapAt (app_width app_height : Int) : Input → Bool
  | Input.frame w h _ => decide (w = app_width) && decide (h = app_height)
  | Input.event (SDL_Event.SDL_EVENT_KEY_DOWN SDL_Keycode.SDLK_SPACE) _ _ => true
  | _ => false

/-- The band the code keeps a live bird in: `width / 2 <= y_loc` and
`y_loc < app_height - floorHeight - width / 2 + 5`, with the flap timer never
negative. -/
def birdInBand (w f H : ℚ) (bird : BirdContext) : Prop :=
  bird.width = w ∧ 0 ≤ bird.flapTimer ∧
    (bird.isDead = false → w / 2 ≤ bird.y_loc ∧ bird.y_loc < H - f - w / 2 + 5)

/-- The start state of the default window (400 by 350, floor height 17.5) with
a 30 by 20 bird. -/
def defaultStart : AppContext := startContext 400 350 30 20 (35 / 2)

/-- The state `defaultStart` is in after a frame, a flap input and another
frame: the bird has fallen by 5 to 180 and then risen by `0.9 * 16` to 165.6. -/
def defaultAfterFlap : AppContext :=
  { defaultStart with
    frameNumber := 2
    bird := { defaultStart.bird with y_loc := 828 / 5, flapTimer := 16, isFlapping := true,
                                     curTexture := BirdTexture.birdTex1 } }

/-- A frame of the default window, a flap input, and another frame. -/
def frameFlapFrame : List Input :=
  [Input.frame 400 350 0,
   Input.event (SDL_Event.SDL_EVENT_KEY_DOWN SDL_Keycode.SDLK_SPACE) 400 350,
   Input.frame 400 350 0]

/-- The start state of a 40 by 40 viewport with floor height 2 (= 40 / 20) and a
bird of the given size. -/
def smallStart (texWidth texHeight : ℚ) : AppContext := startContext 40 40 texWidth texHeight 2

/-- The pipe `CreatePipe` returns for the default window (400 by 350, floor
height 17.5) when `rand()` gives 0. -/
def defaultPipe : PipeContext :=
  { x_top_loc := 400, y_top_loc := 35 / 2, x_bot_loc := 400, y_bot_loc := 675 / 2 }

/-- A live default state whose only pipe has just been created. -/
def onePipeState : AppContext :=
  { defaultStart with frameNumber := 200, pipes := [defaultPipe] }

/-- A frame at pixel width `app_width` (any height, any draw), or any event. -/
def isFrameOfWidthOrEvent (app_width : Int) : Input → Bool
  | Input.frame w _ _ => decide (w = app_width)
  | Input.event _ _ _ => true

/-- The order of the pipe stream for viewport width `W`: x strictly increasing
from front to back, top and bottom x equal, and every pipe at `W - 2 * age` for
a number `age` of frames (the shifts since it was created at `W`). -/
def pipesOrdered (W : ℚ) (pipes : List PipeContext) : Prop :=
  List.Pairwise (fun p q => p.x_bot_loc < q.x_bot_loc) pipes ∧
    ∀ p ∈ pipes, p.x_top_loc = p.x_bot_loc ∧ ∃ age : ℕ, p.x_bot_loc = W - 2 * (age : ℚ)

/-- The default start state one frame before the first pipe is due. -/
def beforeSpawn : AppContext := { defaultStart with frameNumber := 199 }

/-- The state `beforeSpawn` is in after one frame with `rand() = 0`: the bird has
fallen by 5 and the first pipe stands at the right edge. -/
def afterSpawn : AppContext :=
  { defaultStart with
    frameNumber := 200
    bird := { defaultStart.bird with y_loc := 180 }
    pipes := [defaultPipe] }

/-- The clouds `GenerateClouds` places for the default start state on the draws
`cloudDraws`. -/
def defaultClouds : List SDL_FPoint := [{ x := 10, y := 20 }, { x := 300, y := 100 }]

/-- Draws for `GenerateClouds`: 0 (two clouds), then the candidates (10, 20),
(15, 25) and (300, 100); the second is too close to the first. -/
def cloudDraws : List Nat := [0, 10, 20, 15, 25, 300, 100]

/-- A live state of the default window at frame 285, in the middle of a flap
(`flapTimer = 11`): the bird is at height 56 and the first pipe (created with
`rand() = 0`, shifted 85 times) has reached x = 230, the right end of the bird's
x-span `[170, 230]`. -/
def midFlap : AppContext :=
  { frameNumber := 285
    score := 0
    bird :=
      { width := 30, height := 20, x_loc := 200, y_loc := 56, flapTimer := 11,
        isFlapping := true, isDead := false, curTexture := BirdTexture.birdTex1 }
    floorHeight := 35 / 2
    pipes := [{ x_top_loc := 230, y_top_loc := 35 / 2, x_bot_loc := 230, y_bot_loc := 675 / 2 }]
    cloudCenters := defaultClouds }

/-- The state `midFlap` is in after one frame: the bird has risen by `0.9 * 10`
to 47, has hit the top pipe (47 - 30 <= 17.5) and is dead with `flapTimer = 10`. -/
def diedMidFlap : AppContext :=
  { frameNumber := 286
    score := 0
    bird :=
      { width := 30, height := 20, x_loc := 200, y_loc := 47, flapTimer := 10,
        isFlapping := true, isDead := true, curTexture := BirdTexture.birdTex1 }
    floorHeight := 35 / 2
    pipes := [{ x_top_loc := 228, y_top_loc := 35 / 2, x_bot_loc := 228, y_bot_loc := 675 / 2 }]
    cloudCenters := defaultClouds }

/-- The state `diedMidFlap` is in after the reset input. -/
def restarted : AppContext :=
  { frameNumber := 0
    score := 0
    bird :=
      { width := 30, height := 20, x_loc := 200, y_loc := 175, flapTimer := 10,
        isFlapping := true, isDead := false, curTexture := BirdTexture.birdTex1 }
    floorHeight := 35 / 2
    pipes := []
    cloudCenters := defaultClouds }

/-! # Theorems -/

/-! ## Collision predicate (C6) -/

/-- C6. `BirdPipeCollision` returns false whenever the x-span
`[x - width, x + width]` of the bird does not contain the pipe's x; when the
span does contain it, the result is true exactly when `y - width <= pipe_top` or
`y + width >= pipe_bot`; and the bird's height plays no part in the result. -/
theorem BirdPipeCollision_spec (pipe_x pipe_top pipe_bot : ℚ) (b : BirdContext) :
    (¬ (b.x_loc - b.width ≤ pipe_x ∧ pipe_x ≤ b.x_loc + b.width) →
        BirdPipeCollision pipe_x pipe_top pipe_bot b = false) ∧
    ((b.x_loc - b.width ≤ pipe_x ∧ pipe_x ≤ b.x_loc + b.width) →
        (BirdPipeCollision pipe_x pipe_top pipe_bot b = true ↔
          (b.y_loc - b.width ≤ pipe_top ∨ b.y_loc + b.width ≥ pipe_bot))) ∧
    (∀ height1 : ℚ,
        BirdPipeCollision pipe_x pipe_top pipe_bot { b with height := height1 } =
          BirdPipeCollision pipe_x pipe_top pipe_bot b) := by
  refine ⟨?_, ?_, ?_⟩
  · intro hspan
    unfold BirdPipeCollision
    rw [if_neg]
    intro hc
    exact hspan ⟨hc.2, hc.1⟩
  · intro hspan
    unfold BirdPipeCollision
    rw [if_pos ⟨hspan.2, hspan.1⟩]
    simp
  · intro height1
    rfl

/-- C6 at concrete inputs: a pipe at x = 400 is outside the span `[170, 230]`,
a pipe at x = 200 with top 150 is inside it and is hit (175 - 30 <= 150). -/
theorem BirdPipeCollision_spec_witness :
    BirdPipeCollision 400 150 470 centreBird = false ∧
    BirdPipeCollision 200 150 470 centreBird = true :=
  ⟨(BirdPipeCollision_spec 400 150 470 centreBird).1 (by norm_num [centreBird]),
   ((BirdPipeCollision_spec 200 150 470 centreBird).2.1 (by norm_num [centreBird])).2
     (Or.inl (by norm_num [centreBird]))⟩

/-! ## Pipe creation (C7) -/

theorem floatToInt_intCast (n : Int) : floatToInt (n : ℚ) = n := by
  simp [floatToInt]

theorem cMod_of_ne_zero (a b : Int) (hb : b ≠ 0) : cMod a b = some (Int.tmod a b) := by
  simp [cMod, hb]

theorem tmod_natCast_bounds (r : Nat) (n : Int) (hn : n ≠ 0) :
    0 ≤ Int.tmod (r : Int) n ∧ Int.tmod (r : Int) n < |n| := by
  refine ⟨Int.tmod_nonneg n (Int.ofNat_nonneg r), ?_⟩
  rcases lt_or_gt_of_ne hn with hneg | hpos
  · have h1 : Int.tmod (r : Int) (-n) < -n := Int.tmod_lt_of_pos _ (by omega)
    rw [Int.tmod_neg] at h1
    rw [abs_of_neg hneg]
    exact h1
  · rw [abs_of_pos hpos]
    exact Int.tmod_lt_of_pos _ hpos

theorem CreatePipe_of_ne_zero (app_width app_height floor_height : ℚ) (r : Nat)
    (hn : floatToInt app_height - 3 * floatToInt floor_height - 320 ≠ 0) :
    CreatePipe app_width app_height floor_height r =
      some
        { x_top_loc := app_width
          y_top_loc := floor_height +
            ((Int.tmod (r : Int)
              (floatToInt app_height - 3 * floatToInt floor_height - 320) : Int) : ℚ)
          x_bot_loc := app_width
          y_bot_loc := floor_height +
            ((Int.tmod (r : Int)
              (floatToInt app_height - 3 * floatToInt floor_height - 320) : Int) : ℚ) + 320 } := by
  unfold CreatePipe
  rw [show PIXEL_SPACE_BETWEEN_PIPES = 320 from rfl, cMod_of_ne_zero _ _ hn]
  simp

/-- C7, as the code has it. With `n = (int)app_height - 3 * (int)floor_height - 320`
nonzero, `CreatePipe` returns a pipe with `x_top = x_bot = app_width`,
`y_top = floor_height + offset` and `y_bot = y_top + 320`, where the offset is
`rand() % n`, an integer with `0 <= offset < |n|` (so `offset < n` when `n > 0`).
The bound is on the truncated integers, not on `app_height - 3 * floor_height - 320`. -/
theorem CreatePipe_spec (app_width app_height floor_height : ℚ) (r : Nat)
    (hn : floatToInt app_height - 3 * floatToInt floor_height - 320 ≠ 0) :
    ∃ offset : Int,
      CreatePipe app_width app_height floor_height r =
        some
          { x_top_loc := app_width
            y_top_loc := floor_height + (offset : ℚ)
            x_bot_loc := app_width
            y_bot_loc := floor_height + (offset : ℚ) + 320 } ∧
      offset = Int.tmod (r : Int) (floatToInt app_height - 3 * floatToInt floor_height - 320) ∧
      0 ≤ offset ∧
      offset < |floatToInt app_height - 3 * floatToInt floor_height - 320| ∧
      (0 < floatToInt app_height - 3 * floatToInt floor_height - 320 →
        offset < floatToInt app_height - 3 * floatToInt floor_height - 320) := by
  refine ⟨Int.tmod (r : Int) (floatToInt app_height - 3 * floatToInt floor_height - 320),
    ?_, rfl, (tmod_natCast_bounds r _ hn).1, (tmod_natCast_bounds r _ hn).2, ?_⟩
  · exact CreatePipe_of_ne_zero app_width app_height floor_height r hn
  · intro hpos
    exact Int.tmod_lt_of_pos _ hpos

theorem floatToInt_35_2 : floatToInt (35 / 2) = 17 := by
  rw [floatToInt]
  have h1 : ((35 : ℚ) / 2).num = 35 := by norm_num
  have h2 : ((35 : ℚ) / 2).den = 2 := by norm_num
  rw [h1, h2]
  rfl

theorem floatToInt_377_20 : floatToInt (377 / 20) = 18 := by
  rw [floatToInt]
  have h1 : ((377 : ℚ) / 20).num = 377 := by norm_num
  have h2 : ((377 : ℚ) / 20).den = 20 := by norm_num
  rw [h1, h2]
  rfl

theorem floatToInt_350 : floatToInt 350 = 350 := floatToInt_intCast 350

theorem floatToInt_377 : floatToInt 377 = 377 := floatToInt_intCast 377

/-- C7 at the scenario of the specification: viewport 400 by 350, floor height
17.5 (so `n = 350 - 3 * 17 - 320 = -21`) and `rand() = 0` give offset 0,
`y_top = 17.5` and `y_bot = 337.5`. -/
theorem CreatePipe_spec_witness :
    ∃ offset : Int,
      CreatePipe 400 350 (35 / 2) 0 =
        some
          { x_top_loc := 400
            y_top_loc := 35 / 2 + (offset : ℚ)
            x_bot_loc := 400
            y_bot_loc := 35 / 2 + (offset : ℚ) + 320 } ∧
      offset = Int.tmod ((0 : Nat) : Int) (floatToInt 350 - 3 * floatToInt (35 / 2) - 320) ∧
      0 ≤ offset ∧
      offset < |floatToInt 350 - 3 * floatToInt (35 / 2) - 320| ∧
      (0 < floatToInt 350 - 3 * floatToInt (35 / 2) - 320 →
        offset < floatToInt 350 - 3 * floatToInt (35 / 2) - 320) :=
  CreatePipe_spec 400 350 (35 / 2) 0 (by rw [floatToInt_350, floatToInt_35_2]; decide)

/-- C7 fails as stated. Viewport height 377 with floor height 377/20 = 18.85
(what `SDL_AppInit` sets for that height) meets the stated precondition
`H - 3 * f - 320 = 0.45 > 0`, but `rand() = 2` gives offset `2 % 3 = 2`, which is
not below 0.45: no offset in `[0, H - 3 * f - 320)` describes the pipe. -/
theorem CreatePipe_offset_counterexample :
    (0 : ℚ) < 377 - 3 * (377 / 20) - 320 ∧
    ∃ p : PipeContext, CreatePipe 400 377 (377 / 20) 2 = some p ∧
      ¬ ∃ offset : ℚ, p.y_top_loc = 377 / 20 + offset ∧ 0 ≤ offset ∧
          offset < 377 - 3 * (377 / 20) - 320 := by
  refine ⟨by norm_num, ?_⟩
  have hp := CreatePipe_of_ne_zero 400 377 (377 / 20) 2
    (by rw [floatToInt_377, floatToInt_377_20]; decide)
  rw [floatToInt_377, floatToInt_377_20] at hp
  have h2 : Int.tmod ((2 : Nat) : Int) (377 - 3 * 18 - 320) = 2 := by decide
  rw [h2] at hp
  refine ⟨_, hp, ?_⟩
  rintro ⟨o, ho, -, hlt⟩
  have : o = 2 := by
    simp only at ho
    push_cast at ho
    linarith
  subst this
  norm_num at hlt

/-! ## Runs: unfolding lemmas -/

theorem run_nil (app : AppContext) : run app [] = some app := rfl

theorem run_frame (app : AppContext) (w h : Int) (r : Nat) (rest : List Input) :
    run app (Input.frame w h r :: rest) =
      (SDL_AppIterate app w h r).bind (fun app1 => run app1 rest) := by
  rw [run]
  cases SDL_AppIterate app w h r <;> rfl

theorem run_event (app : AppContext) (e : SDL_Event) (w h : Int) (rest : List Input) :
    run app (Input.event e w h :: rest) =
      if (SDL_AppEvent app e w h).1 = SDL_AppResult.SDL_APP_CONTINUE then
        run (SDL_AppEvent app e w h).2 rest
      else
        some (SDL_AppEvent app e w h).2 := by
  rw [run]
  rcases hres : SDL_AppEvent app e w h with ⟨res, app1⟩
  cases res <;> simp

/-! ## Reset (C3) -/

/-- C3. In a dead state the reset input (key-down of R) continues the program
with score 0, frame counter 0, no pipes, `isDead = false`, the bird at the
centre of the pixel size, and the cloud list equal to the one before. -/
theorem reset_spec (app : AppContext) (app_width app_height : Int)
    (hdead : app.bird.isDead = true) :
    (SDL_AppEvent app (SDL_Event.SDL_EVENT_KEY_DOWN SDL_Keycode.SDLK_R)
        app_width app_height).1 = SDL_AppResult.SDL_APP_CONTINUE ∧
    (SDL_AppEvent app (SDL_Event.SDL_EVENT_KEY_DOWN SDL_Keycode.SDLK_R)
        app_width app_height).2.score = 0 ∧
    (SDL_AppEvent app (SDL_Event.SDL_EVENT_KEY_DOWN SDL_Keycode.SDLK_R)
        app_width app_height).2.frameNumber = 0 ∧
    (SDL_AppEvent app (SDL_Event.SDL_EVENT_KEY_DOWN SDL_Keycode.SDLK_R)
        app_width app_height).2.pipes = [] ∧
    (SDL_AppEvent app (SDL_Event.SDL_EVENT_KEY_DOWN SDL_Keycode.SDLK_R)
        app_width app_height).2.bird.isDead = false ∧
    (SDL_AppEvent app (SDL_Event.SDL_EVENT_KEY_DOWN SDL_Keycode.SDLK_R)
        app_width app_height).2.bird.x_loc = (app_width : ℚ) / 2 ∧
    (SDL_AppEvent app (SDL_Event.SDL_EVENT_KEY_DOWN SDL_Keycode.SDLK_R)
        app_width app_height).2.bird.y_loc = (app_height : ℚ) / 2 ∧
    (SDL_AppEvent app (SDL_Event.SDL_EVENT_KEY_DOWN SDL_Keycode.SDLK_R)
        app_width app_height).2.cloudCenters = app.cloudCenters := by
  simp [SDL_AppEvent, hdead]

/-- C3 at the dead example state with the default window size. -/
theorem reset_spec_witness :
    (SDL_AppEvent deadExample (SDL_Event.SDL_EVENT_KEY_DOWN SDL_Keycode.SDLK_R)
        400 350).1 = SDL_AppResult.SDL_APP_CONTINUE ∧
    (SDL_AppEvent deadExample (SDL_Event.SDL_EVENT_KEY_DOWN SDL_Keycode.SDLK_R)
        400 350).2.score = 0 ∧
    (SDL_AppEvent deadExample (SDL_Event.SDL_EVENT_KEY_DOWN SDL_Keycode.SDLK_R)
        400 350).2.frameNumber = 0 ∧
    (SDL_AppEvent deadExample (SDL_Event.SDL_EVENT_KEY_DOWN SDL_Keycode.SDLK_R)
        400 350).2.pipes = [] ∧
    (SDL_AppEvent deadExample (SDL_Event.SDL_EVENT_KEY_DOWN SDL_Keycode.SDLK_R)
        400 350).2.bird.isDead = false ∧
    (SDL_AppEvent deadExample (SDL_Event.SDL_EVENT_KEY_DOWN SDL_Keycode.SDLK_R)
        400 350).2.bird.x_loc = ((400 : Int) : ℚ) / 2 ∧
    (SDL_AppEvent deadExample (SDL_Event.SDL_EVENT_KEY_DOWN SDL_Keycode.SDLK_R)
        400 350).2.bird.y_loc = ((350 : Int) : ℚ) / 2 ∧
    (SDL_AppEvent deadExample (SDL_Event.SDL_EVENT_KEY_DOWN SDL_Keycode.SDLK_R)
        400 350).2.cloudCenters = deadExample.cloudCenters :=
  reset_spec deadExample 400 350 rfl

/-! ## Frames in a dead state (C4) -/

theorem SDL_AppIterate_of_dead (app : AppContext) (app_width app_height : Int) (r : Nat)
    (hdead : app.bird.isDead = true) :
    SDL_AppIterate app app_width app_height r =
      some { app with frameNumber := nextFrameNumber app.frameNumber } := by
  simp [SDL_AppIterate, hdead]

/-- C4, as the code has it. In a dead state one frame leaves the bird, the
pipes, the score, the clouds and the floor height as they are, and steps the
frame counter (to 0 from `INT_MAX`, else by one): the counter step of
`SDL_AppIterate` comes before the test of `isDead`. -/
theorem dead_frame_spec (app : AppContext) (app_width app_height : Int) (r : Nat)
    (hdead : app.bird.isDead = true) :
    ∃ app1, SDL_AppIterate app app_width app_height r = some app1 ∧
      app1.bird = app.bird ∧ app1.pipes = app.pipes ∧ app1.score = app.score ∧
      app1.cloudCenters = app.cloudCenters ∧ app1.floorHeight = app.floorHeight ∧
      app1.frameNumber = (if app.frameNumber = INT_MAX then 0 else app.frameNumber + 1) :=
  ⟨_, SDL_AppIterate_of_dead app app_width app_height r hdead, rfl, rfl, rfl, rfl, rfl, rfl⟩

/-- C4 at the dead example state: the frame counter goes from 57 to 58. -/
theorem dead_frame_spec_witness :
    ∃ app1, SDL_AppIterate deadExample 400 350 0 = some app1 ∧
      app1.bird = deadExample.bird ∧ app1.pipes = deadExample.pipes ∧
      app1.score = deadExample.score ∧
      app1.cloudCenters = deadExample.cloudCenters ∧
      app1.floorHeight = deadExample.floorHeight ∧
      app1.frameNumber =
        (if deadExample.frameNumber = INT_MAX then 0 else deadExample.frameNumber + 1) :=
  dead_frame_spec deadExample 400 350 0 rfl

/-- C4 fails as stated: the dead example state at frame 57 is at frame 58 after
one frame, so the state is not the same before and after. -/
theorem dead_frame_counterexample :
    deadExample.bird.isDead = true ∧
    ∃ app1, SDL_AppIterate deadExample 400 350 0 = some app1 ∧
      deadExample.frameNumber = 57 ∧ app1.frameNumber = 58 ∧ app1 ≠ deadExample := by
  refine ⟨rfl, _, SDL_AppIterate_of_dead deadExample 400 350 0 rfl, rfl, ?_, ?_⟩
  · show nextFrameNumber 57 = 58
    decide
  · intro h
    have h1 := congrArg AppContext.frameNumber h
    have h2 : nextFrameNumber 57 = 57 := h1
    revert h2
    decide

/-! ## Death is permanent until a reset (C5) -/

theorem SDL_AppEvent_of_dead (app : AppContext) (e : SDL_Event) (w h : Int)
    (hdead : app.bird.isDead = true)
    (hne : e ≠ SDL_Event.SDL_EVENT_KEY_DOWN SDL_Keycode.SDLK_R) :
    (SDL_AppEvent app e w h).2 = app := by
  cases e with
  | SDL_EVENT_QUIT => rfl
  | SDL_EVENT_OTHER => rfl
  | SDL_EVENT_KEY_DOWN key =>
    cases key with
    | SDLK_SPACE => simp [SDL_AppEvent, hdead]
    | SDLK_ESCAPE => rfl
    | SDLK_R => exact absurd rfl hne
    | SDLK_OTHER => rfl

theorem isResetInput_event_false (e : SDL_Event) (w h : Int)
    (hno : isResetInput (Input.event e w h) = false) :
    e ≠ SDL_Event.SDL_EVENT_KEY_DOWN SDL_Keycode.SDLK_R := by
  intro he
  subst he
  simp [isResetInput] at hno

theorem run_of_dead (inputs : List Input) :
    ∀ app : AppContext, app.bird.isDead = true →
      (∀ i ∈ inputs, isResetInput i = false) →
      ∃ app1, run app inputs = some app1 ∧ app1.bird.isDead = true := by
  induction inputs with
  | nil =>
    intro app hdead _
    exact ⟨app, rfl, hdead⟩
  | cons i rest ih =>
    intro app hdead hno
    have hrest : ∀ j ∈ rest, isResetInput j = false :=
      fun j hj => hno j (List.mem_cons_of_mem _ hj)
    cases i with
    | frame w h r =>
      rw [run_frame, SDL_AppIterate_of_dead app w h r hdead]
      exact ih _ hdead hrest
    | event e w h =>
      have hne := isResetInput_event_false e w h (hno _ (List.mem_cons_self _ _))
      rw [run_event, SDL_AppEvent_of_dead app e w h hdead hne]
      split
      · exact ih app hdead hrest
      · exact ⟨app, rfl, hdead⟩

/-- C5. From a dead state, every sequence of frames and events without the
reset input (so every sequence of frame ticks and flap inputs) runs to a state
that is still dead; a single input that leads from a dead state to a live one is
the reset input, and the reset input does lead to a live state. -/
theorem dead_until_reset (app : AppContext) (hdead : app.bird.isDead = true) :
    (∀ inputs : List Input, (∀ i ∈ inputs, isResetInput i = false) →
        ∃ app1, run app inputs = some app1 ∧ app1.bird.isDead = true) ∧
    (∀ (i : Input) (app1 : AppContext), run app [i] = some app1 →
        app1.bird.isDead = false → isResetInput i = true) ∧
    (∀ w h : Int, ∃ app1,
        run app [Input.event (SDL_Event.SDL_EVENT_KEY_DOWN SDL_Keycode.SDLK_R) w h] = some app1 ∧
        app1.bird.isDead = false) := by
  refine ⟨fun inputs hno => run_of_dead inputs app hdead hno, ?_, ?_⟩
  · intro i app1 hrun halive
    by_contra hno
    have hno1 : isResetInput i = false := by simpa using hno
    obtain ⟨app2, h2, hd2⟩ := run_of_dead [i] app hdead (by simpa using hno1)
    rw [hrun] at h2
    cases h2
    rw [halive] at hd2
    exact Bool.noConfusion hd2
  · intro w h
    refine ⟨(SDL_AppEvent app (SDL_Event.SDL_EVENT_KEY_DOWN SDL_Keycode.SDLK_R) w h).2, ?_, ?_⟩
    · rw [run_event]
      simp [SDL_AppEvent, hdead, run_nil]
    · simp [SDL_AppEvent, hdead]

/-- C5 at the dead example state: two frames with a flap in between leave it
dead. -/
theorem dead_until_reset_witness :
    ∃ app1,
      run deadExample
        [Input.frame 400 350 0,
         Input.event (SDL_Event.SDL_EVENT_KEY_DOWN SDL_Keycode.SDLK_SPACE) 400 350,
         Input.frame 400 350 0] = some app1 ∧
      app1.bird.isDead = true :=
  (dead_until_reset deadExample rfl).1 _ (by decide)

/-! ## The bird update: basic facts -/

theorem pipeCheck_cases (bird : BirdContext) (pipes : List PipeContext) :
    pipeCheck bird pipes = bird ∨ pipeCheck bird pipes = { bird with isDead := true } := by
  induction pipes with
  | nil => exact Or.inl rfl
  | cons p rest ih =>
    unfold pipeCheck
    split
    · exact Or.inr rfl
    · exact ih

theorem pipeCheck_y_loc (bird : BirdContext) (pipes : List PipeContext) :
    (pipeCheck bird pipes).y_loc = bird.y_loc := by
  rcases pipeCheck_cases bird pipes with h | h <;> rw [h]

theorem pipeCheck_width (bird : BirdContext) (pipes : List PipeContext) :
    (pipeCheck bird pipes).width = bird.width := by
  rcases pipeCheck_cases bird pipes with h | h <;> rw [h]

theorem pipeCheck_flapTimer (bird : BirdContext) (pipes : List PipeContext) :
    (pipeCheck bird pipes).flapTimer = bird.flapTimer := by
  rcases pipeCheck_cases bird pipes with h | h <;> rw [h]

theorem pipeCheck_dead (bird : BirdContext) (pipes : List PipeContext)
    (hdead : bird.isDead = true) : (pipeCheck bird pipes).isDead = true := by
  rcases pipeCheck_cases bird pipes with h | h <;> rw [h]
  exact hdead

theorem pipeCheck_alive (bird : BirdContext) (pipes : List PipeContext)
    (halive : (pipeCheck bird pipes).isDead = false) : bird.isDead = false := by
  cases hb : bird.isDead
  · rfl
  · rw [pipeCheck_dead bird pipes hb] at halive
    exact Bool.noConfusion halive

theorem groundCheck_y_loc (bird : BirdContext) (f H : ℚ) :
    (groundCheck bird f H).y_loc = bird.y_loc := by
  unfold groundCheck
  split <;> rfl

theorem groundCheck_width (bird : BirdContext) (f H : ℚ) :
    (groundCheck bird f H).width = bird.width := by
  unfold groundCheck
  split <;> rfl

theorem groundCheck_flapTimer (bird : BirdContext) (f H : ℚ) :
    (groundCheck bird f H).flapTimer = bird.flapTimer := by
  unfold groundCheck
  split <;> rfl

theorem groundCheck_dead_of_eq (bird : BirdContext) (f H : ℚ)
    (hy : bird.y_loc = H - f - bird.width / 2) : (groundCheck bird f H).isDead = true := by
  unfold groundCheck
  rw [if_pos hy]

theorem groundCheck_alive (bird : BirdContext) (f H : ℚ)
    (halive : (groundCheck bird f H).isDead = false) :
    bird.isDead = false ∧ bird.y_loc ≠ H - f - bird.width / 2 := by
  unfold groundCheck at halive
  split at halive
  · exact Bool.noConfusion halive
  · exact ⟨halive, by assumption⟩

theorem moveBird_width (bird : BirdContext) (f W H : ℚ) :
    (moveBird bird f W H).width = bird.width := by
  unfold moveBird
  split
  · split
    · rfl
    · simp only
      split <;> rfl
  · simp only
    split <;> rfl

theorem moveBird_isDead (bird : BirdContext) (f W H : ℚ) :
    (moveBird bird f W H).isDead = bird.isDead := by
  unfold moveBird
  split
  · split
    · rfl
    · simp only
      split <;> rfl
  · simp only
    split <;> rfl

theorem UpdateBirdInfo_of_alive (app : AppContext) (W H : ℚ)
    (halive : app.bird.isDead = false) :
    UpdateBirdInfo app W H =
      { app with
        bird := pipeCheck (groundCheck (moveBird app.bird app.floorHeight W H)
          app.floorHeight H) app.pipes } := by
  simp [UpdateBirdInfo, halive]

/-! ## Death on the floor (C10) -/

theorem moveBird_y_of_floor (bird : BirdContext) (f W H : ℚ)
    (hy : bird.y_loc = H - f - bird.width / 2)
    (hrest : bird.isFlapping = false ∨ bird.flapTimer = 0 ∨ bird.flapTimer = 1 ∨
      ¬ (bird.y_loc > bird.width / 2 +
          PIXELS_FLAPPED_MULTIPLIER * ((bird.flapTimer - 1 : Int) : ℚ))) :
    (moveBird bird f W H).y_loc = bird.y_loc := by
  unfold moveBird
  split
  · rename_i hflap
    split
    · rfl
    · rename_i htimer
      simp only
      split
      · rename_i hguard
        rcases hrest with h | h | h | h
        · rw [h] at hflap
          exact Bool.noConfusion hflap
        · exact absurd h htimer
        · simp [h]
        · exact absurd hguard h
      · rfl
  · simp only
    split
    · rename_i hlt
      rw [hy] at hlt
      exact absurd hlt (lt_irrefl _)
    · simp only
      exact hy.symm

/-- C10, as the code has it. An alive bird whose `y_loc` equals the clamp value
the code uses, `app_height - floorHeight - width / 2`, is dead after the next
`UpdateBirdInfo` with `y_loc` unchanged, provided the update is not a rising
step: the bird is in falling mode, or its flap timer is 0 or 1, or the rise
guard `y_loc > width / 2 + 0.9 * (flapTimer - 1)` fails. -/
theorem floor_death_spec (app : AppContext) (app_width app_height : ℚ)
    (halive : app.bird.isDead = false)
    (hy : app.bird.y_loc = app_height - app.floorHeight - app.bird.width / 2)
    (hrest : app.bird.isFlapping = false ∨ app.bird.flapTimer = 0 ∨ app.bird.flapTimer = 1 ∨
      ¬ (app.bird.y_loc > app.bird.width / 2 +
          PIXELS_FLAPPED_MULTIPLIER * ((app.bird.flapTimer - 1 : Int) : ℚ))) :
    (UpdateBirdInfo app app_width app_height).bird.isDead = true ∧
    (UpdateBirdInfo app app_width app_height).bird.y_loc = app.bird.y_loc := by
  have hmove := moveBird_y_of_floor app.bird app.floorHeight app_width app_height hy hrest
  rw [UpdateBirdInfo_of_alive app _ _ halive]
  constructor
  · apply pipeCheck_dead
    apply groundCheck_dead_of_eq
    rw [hmove, moveBird_width]
    exact hy
  · show (pipeCheck _ _).y_loc = _
    rw [pipeCheck_y_loc, groundCheck_y_loc, hmove]

/-- C10 at the falling bird on the floor of the default window: it dies where
it stands. -/
theorem floor_death_spec_witness :
    (UpdateBirdInfo fallAtFloor 400 350).bird.isDead = true ∧
    (UpdateBirdInfo fallAtFloor 400 350).bird.y_loc = fallAtFloor.bird.y_loc :=
  floor_death_spec fallAtFloor 400 350 rfl (by norm_num [fallAtFloor, flapAtFloor])
    (Or.inl rfl)

/-- C10 fails as stated, in two ways. A live 30 by 30 bird at the floor clamp
value 317.5 of the default window (350 - 17.5 - 30/2, the same with width or
height) that has just been given a flap (`flapTimer = 17`) rises by
`0.9 * 16 = 14.4` to 303.1 in the next `UpdateBirdInfo` and stays alive. And a
live falling 30 by 20 bird at the height-based value 350 - 17.5 - 20/2 = 322.5
is moved to 317.5, the width-based value the code clamps to. -/
theorem floor_death_counterexample :
    (flapAtFloor.bird.isDead = false ∧
      flapAtFloor.bird.y_loc = 350 - flapAtFloor.floorHeight - flapAtFloor.bird.height / 2 ∧
      (UpdateBirdInfo flapAtFloor 400 350).bird.isDead = false ∧
      (UpdateBirdInfo flapAtFloor 400 350).bird.y_loc = 3031 / 10 ∧
      (UpdateBirdInfo flapAtFloor 400 350).bird.y_loc ≠ flapAtFloor.bird.y_loc) ∧
    (fallAtHeightClamp.bird.isDead = false ∧
      fallAtHeightClamp.bird.y_loc =
        350 - fallAtHeightClamp.floorHeight - fallAtHeightClamp.bird.height / 2 ∧
      (UpdateBirdInfo fallAtHeightClamp 400 350).bird.y_loc = 635 / 2 ∧
      (UpdateBirdInfo fallAtHeightClamp 400 350).bird.y_loc ≠ fallAtHeightClamp.bird.y_loc) := by
  refine ⟨⟨rfl, by norm_num [flapAtFloor], ?_, ?_, ?_⟩,
    ⟨rfl, by norm_num [fallAtHeightClamp, centreBird], ?_, ?_⟩⟩ <;>
    norm_num [UpdateBirdInfo, flapAtFloor, fallAtHeightClamp, centreBird, moveBird,
      groundCheck, pipeCheck, PIXELS_FLAPPED_MULTIPLIER]

/-! ## The vertical band of a live bird (C1) -/

theorem moveBird_flapTimer_nonneg (bird : BirdContext) (f W H : ℚ)
    (ht : 0 ≤ bird.flapTimer) : 0 ≤ (moveBird bird f W H).flapTimer := by
  unfold moveBird
  split
  · split
    · exact ht
    · rename_i hne
      simp only
      split <;> (simp only; omega)
  · simp only
    split <;> exact ht

theorem moveBird_band (bird : BirdContext) (f W H : ℚ)
    (ht : 0 ≤ bird.flapTimer)
    (hlo : bird.width / 2 ≤ bird.y_loc)
    (hhi : bird.y_loc < H - f - bird.width / 2 + 5)
    (hne : (moveBird bird f W H).y_loc ≠ H - f - bird.width / 2) :
    bird.width / 2 ≤ (moveBird bird f W H).y_loc ∧
      (moveBird bird f W H).y_loc < H - f - bird.width / 2 + 5 := by
  unfold moveBird at hne ⊢
  split
  · split
    · exact ⟨hlo, hhi⟩
    · rename_i htimer
      have h1 : (0 : ℚ) ≤ ((bird.flapTimer - 1 : Int) : ℚ) := by
        have : (0 : Int) ≤ bird.flapTimer - 1 := by omega
        exact_mod_cast this
      have h2 : (0 : ℚ) ≤ PIXELS_FLAPPED_MULTIPLIER * ((bird.flapTimer - 1 : Int) : ℚ) :=
        mul_nonneg (by norm_num [PIXELS_FLAPPED_MULTIPLIER]) h1
      simp only
      split
      · rename_i hguard
        simp only at hguard ⊢
        constructor <;> linarith
      · exact ⟨hlo, hhi⟩
  · rename_i hfall
    simp only [hfall] at hne
    simp only
    split
    · rename_i hlt
      simp only [PIXELS_FALLEN_PER_FRAME]
      constructor <;> linarith
    · rename_i hge
      rw [if_neg hge] at hne
      exact absurd rfl hne

theorem UpdateBirdInfo_band (app : AppContext) (W H w : ℚ)
    (hinv : birdInBand w app.floorHeight H app.bird) :
    birdInBand w app.floorHeight H (UpdateBirdInfo app W H).bird := by
  obtain ⟨hw, ht, hband⟩ := hinv
  cases hdead : app.bird.isDead
  · rw [UpdateBirdInfo_of_alive app W H hdead]
    obtain ⟨hlo, hhi⟩ := hband hdead
    rw [← hw] at hlo hhi
    have hmove := moveBird_band app.bird app.floorHeight W H ht hlo hhi
    refine ⟨?_, ?_, ?_⟩
    · show (pipeCheck _ _).width = w
      rw [pipeCheck_width, groundCheck_width, moveBird_width, hw]
    · show 0 ≤ (pipeCheck _ _).flapTimer
      rw [pipeCheck_flapTimer, groundCheck_flapTimer]
      exact moveBird_flapTimer_nonneg _ _ _ _ ht
    · intro halive
      have halive1 : (pipeCheck (groundCheck (moveBird app.bird app.floorHeight W H)
          app.floorHeight H) app.pipes).isDead = false := halive
      have h2 := groundCheck_alive _ _ _ (pipeCheck_alive _ _ halive1)
      rw [moveBird_width] at h2
      show w / 2 ≤ (pipeCheck _ _).y_loc ∧ (pipeCheck _ _).y_loc < _
      rw [pipeCheck_y_loc, groundCheck_y_loc, ← hw]
      exact hmove h2.2
  · have : UpdateBirdInfo app W H = app := by simp [UpdateBirdInfo, hdead]
    rw [this]
    exact ⟨hw, ht, hband⟩

theorem UpdatePipeLocations_bird (app : AppContext) (W H : ℚ) :
    (UpdatePipeLocations app W H).bird = app.bird := rfl

theorem UpdatePipeLocations_floorHeight (app : AppContext) (W H : ℚ) :
    (UpdatePipeLocations app W H).floorHeight = app.floorHeight := rfl

theorem UpdateBirdInfo_floorHeight (app : AppContext) (W H : ℚ) :
    (UpdateBirdInfo app W H).floorHeight = app.floorHeight := by
  unfold UpdateBirdInfo
  split <;> rfl

theorem UpdateBirdInfo_frameNumber (app : AppContext) (W H : ℚ) :
    (UpdateBirdInfo app W H).frameNumber = app.frameNumber := by
  unfold UpdateBirdInfo
  split <;> rfl

theorem UpdateBirdInfo_pipes (app : AppContext) (W H : ℚ) :
    (UpdateBirdInfo app W H).pipes = app.pipes := by
  unfold UpdateBirdInfo
  split <;> rfl

theorem UpdateBirdInfo_score (app : AppContext) (W H : ℚ) :
    (UpdateBirdInfo app W H).score = app.score := by
  unfold UpdateBirdInfo
  split <;> rfl

theorem UpdateBirdInfo_bird_frameNumber (app : AppContext) (W H : ℚ) (n : Int) :
    (UpdateBirdInfo { app with frameNumber := n } W H).bird = (UpdateBirdInfo app W H).bird := by
  unfold UpdateBirdInfo
  split <;> rfl

theorem SDL_AppIterate_bird (app app1 : AppContext) (W H : Int) (r : Nat)
    (hstep : SDL_AppIterate app W H r = some app1) :
    app1.bird = (UpdateBirdInfo app (W : ℚ) (H : ℚ)).bird ∧
    app1.floorHeight = app.floorHeight := by
  cases hdead : app.bird.isDead
  · unfold SDL_AppIterate at hstep
    simp only [hdead, if_true] at hstep
    split at hstep
    · split at hstep
      · exact Option.noConfusion hstep
      · cases hstep
        exact ⟨UpdateBirdInfo_bird_frameNumber app _ _ _,
          UpdateBirdInfo_floorHeight { app with frameNumber := _ } _ _⟩
    · cases hstep
      exact ⟨UpdateBirdInfo_bird_frameNumber app _ _ _,
        UpdateBirdInfo_floorHeight { app with frameNumber := _ } _ _⟩
  · rw [SDL_AppIterate_of_dead app W H r hdead] at hstep
    cases hstep
    have : UpdateBirdInfo app (W : ℚ) (H : ℚ) = app := by simp [UpdateBirdInfo, hdead]
    rw [this]
    exact ⟨rfl, rfl⟩

theorem SDL_AppEvent_space_band (app : AppContext) (w h : Int) (bw f H : ℚ)
    (hinv : birdInBand bw f H app.bird) :
    (SDL_AppEvent app (SDL_Event.SDL_EVENT_KEY_DOWN SDL_Keycode.SDLK_SPACE) w h).2.floorHeight =
        app.floorHeight ∧
    birdInBand bw f H
      (SDL_AppEvent app (SDL_Event.SDL_EVENT_KEY_DOWN SDL_Keycode.SDLK_SPACE) w h).2.bird := by
  obtain ⟨hw, ht, hband⟩ := hinv
  unfold SDL_AppEvent
  simp only
  split
  · exact ⟨rfl, hw, by simp [FRAMES_PER_FLAP], hband⟩
  · exact ⟨rfl, hw, ht, hband⟩

theorem run_band (W H : Int) (bw f : ℚ) (inputs : List Input) :
    ∀ app : AppContext, app.floorHeight = f → birdInBand bw f (H : ℚ) app.bird →
      (∀ i ∈ inputs, isFrameOrFlapAt W H i = true) →
      ∀ app1, run app inputs = some app1 →
        app1.floorHeight = f ∧ birdInBand bw f (H : ℚ) app1.bird := by
  induction inputs with
  | nil =>
    intro app hf hinv _ app1 hrun
    cases hrun
    exact ⟨hf, hinv⟩
  | cons i rest ih =>
    intro app hf hinv hin app1 hrun
    have hrest : ∀ j ∈ rest, isFrameOrFlapAt W H j = true :=
      fun j hj => hin j (List.mem_cons_of_mem _ hj)
    have hi := hin i (List.mem_cons_self _ _)
    cases i with
    | frame w h r =>
      simp only [isFrameOrFlapAt, Bool.and_eq_true, decide_eq_true_eq] at hi
      obtain ⟨rfl, rfl⟩ := hi
      rw [run_frame] at hrun
      cases hstep : SDL_AppIterate app w h r with
      | none =>
        rw [hstep] at hrun
        exact Option.noConfusion hrun
      | some app2 =>
        rw [hstep] at hrun
        obtain ⟨hbird, hfloor⟩ := SDL_AppIterate_bird app app2 w h r hstep
        apply ih app2 (hfloor.trans hf) _ hrest app1 hrun
        rw [hbird]
        have := UpdateBirdInfo_band app (w : ℚ) (h : ℚ) bw (by rw [hf]; exact hinv)
        rw [hf] at this
        exact this
    | event e w h =>
      cases e with
      | SDL_EVENT_QUIT => simp [isFrameOrFlapAt] at hi
      | SDL_EVENT_OTHER => simp [isFrameOrFlapAt] at hi
      | SDL_EVENT_KEY_DOWN key =>
        cases key with
        | SDLK_ESCAPE => simp [isFrameOrFlapAt] at hi
        | SDLK_R => simp [isFrameOrFlapAt] at hi
        | SDLK_OTHER => simp [isFrameOrFlapAt] at hi
        | SDLK_SPACE =>
          have hev := SDL_AppEvent_space_band app w h bw f (H : ℚ) hinv
          have hres : (SDL_AppEvent app (SDL_Event.SDL_EVENT_KEY_DOWN SDL_Keycode.SDLK_SPACE)
              w h).1 = SDL_AppResult.SDL_APP_CONTINUE := by
            unfold SDL_AppEvent
            simp only
            split <;> rfl
          rw [run_event, if_pos hres] at hrun
          exact ih _ (hev.1.trans hf) hev.2 hrest app1 hrun

/-- C1, as the code has it. Start from a state with the bird at the centre
`app_height / 2` of a fixed viewport and a flap timer that is not negative (the
initial state, with timer 0, is one), the centre lying in
`[width / 2, app_height - floorHeight - width / 2]`. After every sequence of
frames at that viewport and flap inputs, the floor height and the bird's width
are what they were, and if the bird is alive then
`width / 2 <= y_loc < app_height - floorHeight - width / 2 + 5`: the bounds use
the width, not the height, and a falling step may pass the floor value by less
than the fall increment 5. -/
theorem bird_band_spec (app_width app_height : Int) (app : AppContext)
    (hcentre : app.bird.y_loc = (app_height : ℚ) / 2)
    (htimer : 0 ≤ app.bird.flapTimer)
    (hlo : app.bird.width / 2 ≤ (app_height : ℚ) / 2)
    (hhi : (app_height : ℚ) / 2 ≤ (app_height : ℚ) - app.floorHeight - app.bird.width / 2)
    (inputs : List Input)
    (hin : ∀ i ∈ inputs, isFrameOrFlapAt app_width app_height i = true)
    (app1 : AppContext) (hrun : run app inputs = some app1)
    (halive : app1.bird.isDead = false) :
    app1.floorHeight = app.floorHeight ∧ app1.bird.width = app.bird.width ∧
    app1.bird.width / 2 ≤ app1.bird.y_loc ∧
    app1.bird.y_loc < (app_height : ℚ) - app1.floorHeight - app1.bird.width / 2 + 5 := by
  have hinv : birdInBand app.bird.width app.floorHeight (app_height : ℚ) app.bird := by
    refine ⟨rfl, htimer, fun _ => ?_⟩
    rw [hcentre]
    constructor <;> linarith
  obtain ⟨hf, hw, -, hband⟩ :=
    run_band app_width app_height app.bird.width app.floorHeight inputs app rfl hinv hin
      app1 hrun
  rw [hf, hw]
  exact ⟨rfl, rfl, hband halive⟩

theorem tmod_one_FRAMES_PER_PIPE : Int.tmod 1 FRAMES_PER_PIPE = 1 := by decide

theorem tmod_two_FRAMES_PER_PIPE : Int.tmod 2 FRAMES_PER_PIPE = 2 := by decide

theorem run_defaultStart_frameFlapFrame :
    run defaultStart frameFlapFrame = some defaultAfterFlap := by
  norm_num [run, SDL_AppIterate, SDL_AppEvent, defaultStart, defaultAfterFlap, frameFlapFrame,
    startContext, UpdateBirdInfo, UpdatePipeLocations, nextFrameNumber, INT_MAX, moveBird,
    groundCheck, pipeCheck, scrollPipes, retireFront, PIXELS_FALLEN_PER_FRAME,
    PIXELS_FLAPPED_MULTIPLIER, FRAMES_PER_FLAP, tmod_one_FRAMES_PER_PIPE,
    tmod_two_FRAMES_PER_PIPE]

/-- C1 at the default window: after a frame, a flap and another frame the 30 by
20 bird is alive at 165.6, inside the band `[15, 322.5)`. -/
theorem bird_band_spec_witness :
    run defaultStart frameFlapFrame = some defaultAfterFlap ∧
    defaultAfterFlap.bird.isDead = false ∧
    defaultAfterFlap.floorHeight = defaultStart.floorHeight ∧
    defaultAfterFlap.bird.width = defaultStart.bird.width ∧
    defaultAfterFlap.bird.width / 2 ≤ defaultAfterFlap.bird.y_loc ∧
    defaultAfterFlap.bird.y_loc <
      ((350 : Int) : ℚ) - defaultAfterFlap.floorHeight - defaultAfterFlap.bird.width / 2 + 5 :=
  ⟨run_defaultStart_frameFlapFrame, rfl,
    bird_band_spec 400 350 defaultStart (by norm_num [defaultStart, startContext])
      (by decide) (by norm_num [defaultStart, startContext])
      (by norm_num [defaultStart, startContext]) frameFlapFrame (by decide)
      defaultAfterFlap run_defaultStart_frameFlapFrame rfl⟩

/-- C1 fails as stated, in two ways, both after one frame from the start state
of a 40 by 40 viewport with floor height 2. A 30 by 30 bird falls from 20 to 25,
past `40 - 2 - 30/2 = 23`, and is alive (the code tests `y_loc == 23`). A 10 by 30
bird falls from 20 to 25 as well and is alive, since the code clamps at
`40 - 2 - 10/2 = 33`, while the stated bound with the height is 23. -/
theorem bird_band_counterexample :
    (∃ app1, run (smallStart 30 30) [Input.frame 40 40 0] = some app1 ∧
      app1.bird.isDead = false ∧ app1.bird.height = 30 ∧ app1.floorHeight = 2 ∧
      app1.bird.y_loc = 25 ∧
      ¬ (app1.bird.height / 2 ≤ app1.bird.y_loc ∧
          app1.bird.y_loc ≤ 40 - app1.floorHeight - app1.bird.height / 2)) ∧
    (∃ app1, run (smallStart 10 30) [Input.frame 40 40 0] = some app1 ∧
      app1.bird.isDead = false ∧ app1.bird.height = 30 ∧ app1.floorHeight = 2 ∧
      app1.bird.y_loc = 25 ∧
      ¬ (app1.bird.height / 2 ≤ app1.bird.y_loc ∧
          app1.bird.y_loc ≤ 40 - app1.floorHeight - app1.bird.height / 2)) := by
  constructor
  · refine ⟨{ smallStart 30 30 with
        frameNumber := 1, bird := { (smallStart 30 30).bird with y_loc := 25 } }, ?_, rfl, rfl,
      rfl, rfl, ?_⟩
    · norm_num [run, SDL_AppIterate, smallStart, startContext, UpdateBirdInfo,
        UpdatePipeLocations, nextFrameNumber, INT_MAX, moveBird, groundCheck, pipeCheck,
        scrollPipes, retireFront, PIXELS_FALLEN_PER_FRAME, tmod_one_FRAMES_PER_PIPE]
    · norm_num [smallStart, startContext]
  · refine ⟨{ smallStart 10 30 with
        frameNumber := 1, bird := { (smallStart 10 30).bird with y_loc := 25 } }, ?_, rfl, rfl,
      rfl, rfl, ?_⟩
    · norm_num [run, SDL_AppIterate, smallStart, startContext, UpdateBirdInfo,
        UpdatePipeLocations, nextFrameNumber, INT_MAX, moveBird, groundCheck, pipeCheck,
        scrollPipes, retireFront, PIXELS_FALLEN_PER_FRAME, tmod_one_FRAMES_PER_PIPE]
    · norm_num [smallStart, startContext]

/-! ## Scoring (C2) -/

theorem shiftPipe_iterate_x_bot (p : PipeContext) (k : ℕ) :
    (shiftPipe^[k] p).x_bot_loc = p.x_bot_loc - 2 * (k : ℚ) := by
  induction k with
  | zero => simp
  | succ n ih =>
    rw [Function.iterate_succ_apply']
    simp only [shiftPipe, PIXELS_MOVED_PER_FRAME_PIPES, ih]
    push_cast
    ring

theorem shiftPipe_iterate_x_top (p : PipeContext) (k : ℕ) :
    (shiftPipe^[k] p).x_top_loc = p.x_top_loc - 2 * (k : ℚ) := by
  induction k with
  | zero => simp
  | succ n ih =>
    rw [Function.iterate_succ_apply']
    simp only [shiftPipe, PIXELS_MOVED_PER_FRAME_PIPES, ih]
    push_cast
    ring

theorem crossesMiddle_iff (W : ℚ) (p : PipeContext) :
    crossesMiddle W p = true ↔ (p.x_bot_loc ≤ W / 2 ∧ W / 2 - 2 < p.x_bot_loc) := by
  simp [crossesMiddle, PIXELS_MOVED_PER_FRAME_PIPES]

theorem crossesMiddle_iterate_iff (W : ℚ) (hW : 0 < W) (p : PipeContext)
    (hbot : p.x_bot_loc = W) (k : ℕ) :
    crossesMiddle W (shiftPipe^[k] p) = true ↔ k = ⌈W / 4⌉₊ := by
  rw [crossesMiddle_iff, shiftPipe_iterate_x_bot, hbot]
  have hceil1 : W / 4 ≤ (⌈W / 4⌉₊ : ℚ) := Nat.le_ceil _
  have hceil2 : (⌈W / 4⌉₊ : ℚ) < W / 4 + 1 := Nat.ceil_lt_add_one (by linarith)
  constructor
  · rintro ⟨h1, h2⟩
    apply le_antisymm
    · by_contra hlt
      have h3 : ⌈W / 4⌉₊ + 1 ≤ k := by omega
      have h4 : ((⌈W / 4⌉₊ : ℚ)) + 1 ≤ (k : ℚ) := by exact_mod_cast h3
      linarith
    · apply Nat.ceil_le.mpr
      linarith
  · rintro rfl
    constructor <;> linarith

theorem scrollPipes_fst (W : ℚ) (pipes : List PipeContext) (score : Int) :
    (scrollPipes W pipes score).1 = pipes.map shiftPipe := by
  induction pipes generalizing score with
  | nil => rfl
  | cons p rest ih =>
    simp only [scrollPipes, List.map_cons]
    rw [ih]

theorem scrollPipes_snd (W : ℚ) (pipes : List PipeContext) (score : Int) :
    (scrollPipes W pipes score).2 =
      score + (((pipes.map shiftPipe).countP (crossesMiddle W) : ℕ) : Int) := by
  induction pipes generalizing score with
  | nil => simp [scrollPipes]
  | cons p rest ih =>
    simp only [scrollPipes, List.map_cons]
    rw [ih]
    by_cases hc : crossesMiddle W (shiftPipe p) = true
    · rw [if_pos hc, List.countP_cons_of_pos _ _ hc]
      push_cast
      ring
    · rw [if_neg hc, List.countP_cons_of_neg _ _ hc]

theorem UpdatePipeLocations_score (app : AppContext) (W H : ℚ) :
    (UpdatePipeLocations app W H).score =
      app.score + (((app.pipes.map shiftPipe).countP (crossesMiddle W) : ℕ) : Int) :=
  scrollPipes_snd W app.pipes app.score

theorem UpdatePipeLocations_pipes (app : AppContext) (W H : ℚ) :
    (UpdatePipeLocations app W H).pipes =
      retireFront (app.pipes.map shiftPipe) app.bird.width := by
  simp [UpdatePipeLocations, scrollPipes_fst]

theorem UpdatePipeLocations_iterate_single (W H : ℚ) (hW : 0 < W) (p : PipeContext)
    (hbot : p.x_bot_loc = W) (htop : p.x_top_loc = W) (app : AppContext)
    (hpipes : app.pipes = [p]) (hwidth : 0 ≤ app.bird.width) (n : ℕ) :
    ((fun a => UpdatePipeLocations a W H)^[n] app).bird = app.bird ∧
    ((fun a => UpdatePipeLocations a W H)^[n] app).score =
      app.score + (if ⌈W / 4⌉₊ ≤ n then 1 else 0) ∧
    (((fun a => UpdatePipeLocations a W H)^[n] app).pipes = [shiftPipe^[n] p] ∨
      (((fun a => UpdatePipeLocations a W H)^[n] app).pipes = [] ∧ ⌈W / 4⌉₊ ≤ n)) := by
  have hk0 : 1 ≤ ⌈W / 4⌉₊ := Nat.one_le_iff_ne_zero.mpr (by
    intro h0
    have := (crossesMiddle_iterate_iff W hW p hbot 0).mpr h0.symm
    rw [crossesMiddle_iff] at this
    simp only [Function.iterate_zero, id_eq, hbot] at this
    linarith [this.1])
  induction n with
  | zero =>
    refine ⟨rfl, ?_, Or.inl hpipes⟩
    have : ¬ (⌈W / 4⌉₊ ≤ 0) := by omega
    simp [this]
  | succ n ih =>
    obtain ⟨hbird, hscore, hstream⟩ := ih
    rw [Function.iterate_succ_apply']
    refine ⟨hbird, ?_, ?_⟩
    · rw [UpdatePipeLocations_score, hscore]
      rcases hstream with hs | ⟨hs, hle⟩
      · rw [hs]
        simp only [List.map_cons, List.map_nil]
        rw [← Function.iterate_succ_apply' shiftPipe n p]
        by_cases hc : n + 1 = ⌈W / 4⌉₊
        · have hcross := (crossesMiddle_iterate_iff W hW p hbot (n + 1)).mpr hc
          rw [List.countP_cons_of_pos _ _ hcross]
          have h1 : ¬ (⌈W / 4⌉₊ ≤ n) := by omega
          have h2 : ⌈W / 4⌉₊ ≤ n + 1 := by omega
          simp [h1, h2]
        · have hcross : ¬ crossesMiddle W (shiftPipe^[n + 1] p) = true :=
            fun h => hc ((crossesMiddle_iterate_iff W hW p hbot (n + 1)).mp h)
          rw [List.countP_cons_of_neg _ _ hcross]
          by_cases h1 : ⌈W / 4⌉₊ ≤ n
          · have h2 : ⌈W / 4⌉₊ ≤ n + 1 := by omega
            simp [h1, h2]
          · have h2 : ¬ (⌈W / 4⌉₊ ≤ n + 1) := by omega
            simp [h1, h2]
      · rw [hs]
        have h2 : ⌈W / 4⌉₊ ≤ n + 1 := by omega
        simp [hle, h2]
    · rw [UpdatePipeLocations_pipes, hbird]
      rcases hstream with hs | ⟨hs, hle⟩
      · rw [hs]
        simp only [List.map_cons, List.map_nil, retireFront]
        rw [← Function.iterate_succ_apply' shiftPipe n p]
        split
        · rename_i hret
          right
          refine ⟨rfl, ?_⟩
          rw [shiftPipe_iterate_x_top, htop] at hret
          have hceil2 : (⌈W / 4⌉₊ : ℚ) < W / 4 + 1 := Nat.ceil_lt_add_one (by linarith)
          have h3 : (⌈W / 4⌉₊ : ℚ) < ((n + 2 : ℕ) : ℚ) := by
            push_cast at hret ⊢
            linarith
          have h4 : ⌈W / 4⌉₊ < n + 2 := by exact_mod_cast h3
          omega
        · left
          rfl
      · right
        rw [hs]
        exact ⟨rfl, by omega⟩

/-- C2. For a viewport width `W > 0`, a pipe created at `x = W` passes the
crossing test of `UpdatePipeLocations` after exactly one number `k0 >= 1` of
shifts (`k0` is `W / 4` rounded up); every call of `UpdatePipeLocations` adds to
the score one for each pipe that passes the test on that call and nothing else;
and when the calls are repeated on a stream holding just that pipe (bird width
not negative), the score is the old score before call `k0` and the old score
plus one from call `k0` on, so the pipe is scored once and never again. -/
theorem crossing_scored_once (W : ℚ) (hW : 0 < W) (p : PipeContext)
    (hbot : p.x_bot_loc = W) (htop : p.x_top_loc = W) :
    ∃ k0 : ℕ, 1 ≤ k0 ∧
      (∀ k : ℕ, crossesMiddle W (shiftPipe^[k] p) = true ↔ k = k0) ∧
      (∀ (app : AppContext) (H : ℚ),
        (UpdatePipeLocations app W H).score =
          app.score + (((app.pipes.map shiftPipe).countP (crossesMiddle W) : ℕ) : Int)) ∧
      (∀ (app : AppContext) (H : ℚ), app.pipes = [p] → 0 ≤ app.bird.width →
        ∀ n : ℕ, ((fun a => UpdatePipeLocations a W H)^[n] app).score =
          app.score + (if k0 ≤ n then 1 else 0)) := by
  refine ⟨⌈W / 4⌉₊, ?_, fun k => crossesMiddle_iterate_iff W hW p hbot k,
    fun app H => UpdatePipeLocations_score app W H, ?_⟩
  · apply Nat.one_le_iff_ne_zero.mpr
    intro h0
    have := (crossesMiddle_iterate_iff W hW p hbot 0).mpr h0.symm
    rw [crossesMiddle_iff] at this
    simp only [Function.iterate_zero, id_eq, hbot] at this
    linarith [this.1]
  · intro app H hpipes hwidth n
    exact (UpdatePipeLocations_iterate_single W H hW p hbot htop app hpipes hwidth n).2.1

/-- C2 at the default window: the pipe created at x = 400 passes the test after
some number `k0 >= 1` of shifts, and on the stream holding just that pipe the
score is unchanged after `k0 - 1` calls and one higher after `k0` calls. -/
theorem crossing_scored_once_witness :
    ∃ k0 : ℕ, 1 ≤ k0 ∧
      crossesMiddle 400 (shiftPipe^[k0] defaultPipe) = true ∧
      ((fun a => UpdatePipeLocations a 400 350)^[k0 - 1] onePipeState).score =
        onePipeState.score ∧
      ((fun a => UpdatePipeLocations a 400 350)^[k0] onePipeState).score =
        onePipeState.score + 1 := by
  obtain ⟨k0, h1, h2, -, h4⟩ := crossing_scored_once 400 (by norm_num) defaultPipe rfl rfl
  have hw : 0 ≤ onePipeState.bird.width := by
    norm_num [onePipeState, defaultStart, startContext]
  refine ⟨k0, h1, (h2 k0).2 rfl, ?_, ?_⟩
  · rw [h4 onePipeState 350 rfl hw (k0 - 1), if_neg (by omega)]
    simp
  · rw [h4 onePipeState 350 rfl hw k0, if_pos (le_refl _)]

/-! ## Order of the pipe stream (C9) -/

theorem retireFront_eq_drop (pipes : List PipeContext) (w : ℚ) :
    ∃ d : ℕ, d ≤ 1 ∧ retireFront pipes w = pipes.drop d := by
  cases pipes with
  | nil => exact ⟨0, by omega, rfl⟩
  | cons front rest =>
    by_cases h : front.x_top_loc < -w
    · exact ⟨1, le_refl _, by simp [retireFront, h]⟩
    · exact ⟨0, by omega, by simp [retireFront, h]⟩

theorem CreatePipe_x (W H f : ℚ) (r : Nat) (pipe : PipeContext)
    (h : CreatePipe W H f r = some pipe) : pipe.x_top_loc = W ∧ pipe.x_bot_loc = W := by
  unfold CreatePipe at h
  split at h
  · exact Option.noConfusion h
  · cases h
    exact ⟨rfl, rfl⟩

theorem UpdateBirdInfo_width (app : AppContext) (W H : ℚ) :
    (UpdateBirdInfo app W H).bird.width = app.bird.width := by
  unfold UpdateBirdInfo
  split
  · rfl
  · show (pipeCheck _ _).width = _
    rw [pipeCheck_width, groundCheck_width, moveBird_width]

theorem SDL_AppIterate_pipes (app app1 : AppContext) (W H : Int) (r : Nat)
    (hstep : SDL_AppIterate app W H r = some app1) :
    (app.bird.isDead = true ∧ app1.pipes = app.pipes) ∨
    (app.bird.isDead = false ∧ ∃ (d : ℕ) (spawned : List PipeContext),
      d ≤ 1 ∧ spawned.length ≤ 1 ∧
      (∀ q ∈ spawned, q.x_top_loc = (W : ℚ) ∧ q.x_bot_loc = (W : ℚ)) ∧
      app1.pipes = (app.pipes.map shiftPipe).drop d ++ spawned) := by
  cases hdead : app.bird.isDead
  · right
    refine ⟨rfl, ?_⟩
    unfold SDL_AppIterate at hstep
    simp only [hdead, if_true] at hstep
    obtain ⟨d, hd, hret⟩ := retireFront_eq_drop (app.pipes.map shiftPipe)
      (UpdateBirdInfo { app with frameNumber := nextFrameNumber app.frameNumber }
        (W : ℚ) (H : ℚ)).bird.width
    split at hstep
    · split at hstep
      · exact Option.noConfusion hstep
      · rename_i pipe hpipe
        cases hstep
        refine ⟨d, [pipe], hd, le_refl _, ?_, ?_⟩
        · intro q hq
          rw [List.mem_singleton] at hq
          subst hq
          exact CreatePipe_x _ _ _ _ _ hpipe
        · show (UpdatePipeLocations _ _ _).pipes ++ [pipe] = _
          rw [UpdatePipeLocations_pipes, UpdateBirdInfo_pipes]
          show retireFront (List.map shiftPipe app.pipes) _ ++ [pipe] = _
          rw [hret]
    · cases hstep
      refine ⟨d, [], hd, by simp, by simp, ?_⟩
      rw [List.append_nil, UpdatePipeLocations_pipes, UpdateBirdInfo_pipes]
      show retireFront (List.map shiftPipe app.pipes) _ = _
      rw [hret]
  · left
    rw [SDL_AppIterate_of_dead app W H r hdead] at hstep
    cases hstep
    exact ⟨rfl, rfl⟩

theorem pipesOrdered_step (W : ℚ) (pipes spawned : List PipeContext) (d : ℕ)
    (hord : pipesOrdered W pipes) (hlen : spawned.length ≤ 1)
    (hsp : ∀ q ∈ spawned, q.x_top_loc = W ∧ q.x_bot_loc = W) :
    pipesOrdered W ((pipes.map shiftPipe).drop d ++ spawned) := by
  obtain ⟨hpw, hall⟩ := hord
  have hshift : ∀ q ∈ (pipes.map shiftPipe).drop d,
      q.x_top_loc = q.x_bot_loc ∧ ∃ age : ℕ, q.x_bot_loc = W - 2 * (age : ℚ) ∧ 1 ≤ age := by
    intro q hq
    obtain ⟨p, hp, rfl⟩ := List.mem_map.mp (List.mem_of_mem_drop hq)
    obtain ⟨h1, age, h2⟩ := hall p hp
    simp only [shiftPipe, PIXELS_MOVED_PER_FRAME_PIPES]
    constructor
    · rw [h1]
    · refine ⟨age + 1, ?_, by omega⟩
      rw [h2]
      push_cast
      ring
  constructor
  · rw [List.pairwise_append]
    refine ⟨?_, ?_, ?_⟩
    · apply List.Pairwise.sublist (List.drop_sublist d _)
      rw [List.pairwise_map]
      apply hpw.imp
      intro a b hab
      simp only [shiftPipe, PIXELS_MOVED_PER_FRAME_PIPES]
      linarith
    · match spawned, hlen with
      | [], _ => exact List.Pairwise.nil
      | [q], _ => exact List.pairwise_singleton _ _
    · intro a ha b hb
      rw [(hsp b hb).2]
      obtain ⟨-, age, hage, hpos⟩ := hshift a ha
      have hpos1 : (1 : ℚ) ≤ (age : ℚ) := by exact_mod_cast hpos
      rw [hage]
      linarith
  · intro q hq
    rcases List.mem_append.mp hq with h | h
    · obtain ⟨h1, age, hage, -⟩ := hshift q h
      exact ⟨h1, age, hage⟩
    · obtain ⟨h1, h2⟩ := hsp q h
      exact ⟨by rw [h1, h2], 0, by rw [h2]; simp⟩

theorem SDL_AppEvent_pipes (app : AppContext) (e : SDL_Event) (w h : Int) :
    (SDL_AppEvent app e w h).2.pipes = app.pipes ∨ (SDL_AppEvent app e w h).2.pipes = [] := by
  cases e with
  | SDL_EVENT_QUIT => exact Or.inl rfl
  | SDL_EVENT_OTHER => exact Or.inl rfl
  | SDL_EVENT_KEY_DOWN key =>
    cases key with
    | SDLK_SPACE =>
      unfold SDL_AppEvent
      simp only
      split <;> exact Or.inl rfl
    | SDLK_ESCAPE => exact Or.inl rfl
    | SDLK_R =>
      unfold SDL_AppEvent
      simp only
      split
      · exact Or.inr rfl
      · exact Or.inl rfl
    | SDLK_OTHER => exact Or.inl rfl

theorem pipesOrdered_nil (W : ℚ) : pipesOrdered W [] :=
  ⟨List.Pairwise.nil, fun _ h => absurd h (List.not_mem_nil _)⟩

theorem run_pipesOrdered (W : Int) (inputs : List Input) :
    ∀ app : AppContext, pipesOrdered (W : ℚ) app.pipes →
      (∀ i ∈ inputs, isFrameOfWidthOrEvent W i = true) →
      ∀ app1, run app inputs = some app1 → pipesOrdered (W : ℚ) app1.pipes := by
  induction inputs with
  | nil =>
    intro app hord _ app1 hrun
    cases hrun
    exact hord
  | cons i rest ih =>
    intro app hord hin app1 hrun
    have hrest : ∀ j ∈ rest, isFrameOfWidthOrEvent W j = true :=
      fun j hj => hin j (List.mem_cons_of_mem _ hj)
    have hi := hin i (List.mem_cons_self _ _)
    cases i with
    | frame w h r =>
      simp only [isFrameOfWidthOrEvent, decide_eq_true_eq] at hi
      subst hi
      rw [run_frame] at hrun
      cases hstep : SDL_AppIterate app w h r with
      | none =>
        rw [hstep] at hrun
        exact Option.noConfusion hrun
      | some app2 =>
        rw [hstep] at hrun
        apply ih app2 _ hrest app1 hrun
        rcases SDL_AppIterate_pipes app app2 w h r hstep with
          ⟨-, hsame⟩ | ⟨-, d, spawned, -, hlen, hsp, heq⟩
        · rw [hsame]
          exact hord
        · rw [heq]
          exact pipesOrdered_step _ _ _ d hord hlen hsp
    | event e w h =>
      have hord2 : pipesOrdered (W : ℚ) (SDL_AppEvent app e w h).2.pipes := by
        rcases SDL_AppEvent_pipes app e w h with h1 | h1 <;> rw [h1]
        · exact hord
        · exact pipesOrdered_nil _
      rw [run_event] at hrun
      split at hrun
      · exact ih _ hord2 hrest app1 hrun
      · cases hrun
        exact hord2

theorem tmod_200_FRAMES_PER_PIPE : Int.tmod 200 FRAMES_PER_PIPE = 0 := by decide

theorem CreatePipe_default : CreatePipe 400 350 (35 / 2) 0 = some defaultPipe := by
  rw [CreatePipe_of_ne_zero 400 350 (35 / 2) 0
    (by rw [floatToInt_350, floatToInt_35_2]; decide)]
  rw [floatToInt_350, floatToInt_35_2]
  have h : Int.tmod ((0 : Nat) : Int) (350 - 3 * 17 - 320) = 0 := by decide
  rw [h]
  norm_num [defaultPipe]

theorem run_beforeSpawn_frame :
    run beforeSpawn [Input.frame 400 350 0] = some afterSpawn := by
  rw [run_frame]
  simp only [SDL_AppIterate, beforeSpawn, defaultStart, startContext, nextFrameNumber, INT_MAX]
  norm_num [UpdateBirdInfo, UpdatePipeLocations, moveBird, groundCheck, pipeCheck,
    scrollPipes, retireFront, PIXELS_FALLEN_PER_FRAME, tmod_200_FRAMES_PER_PIPE]
  rw [CreatePipe_default]
  norm_num [run, afterSpawn, defaultStart, startContext]

/-- C9. From a state with an empty pipe stream (the initial state and every
state after a reset), after every sequence of frames at a constant viewport
width `W` and events: the x positions of the pipes are strictly increasing from
front to back, every pipe stands at `W - 2 * age` for the number `age` of frames
since it was created (so the order is the order of creation, oldest at the
front), and the next frame either leaves the stream as it is (dead bird) or
shifts every pipe, drops at most the front pipe and appends at most one new pipe
at `x = W` at the back. -/
theorem stream_fifo (W : Int) (app : AppContext) (hempty : app.pipes = [])
    (inputs : List Input) (hin : ∀ i ∈ inputs, isFrameOfWidthOrEvent W i = true)
    (app1 : AppContext) (hrun : run app inputs = some app1) :
    List.Pairwise (fun p q => p.x_bot_loc < q.x_bot_loc) app1.pipes ∧
    (∀ p ∈ app1.pipes, p.x_top_loc = p.x_bot_loc ∧
      ∃ age : ℕ, p.x_bot_loc = (W : ℚ) - 2 * (age : ℚ)) ∧
    (∀ (h : Int) (r : Nat) (app2 : AppContext), SDL_AppIterate app1 W h r = some app2 →
      (app1.bird.isDead = true ∧ app2.pipes = app1.pipes) ∨
      (app1.bird.isDead = false ∧ ∃ (d : ℕ) (spawned : List PipeContext),
        d ≤ 1 ∧ spawned.length ≤ 1 ∧
        (∀ q ∈ spawned, q.x_top_loc = (W : ℚ) ∧ q.x_bot_loc = (W : ℚ)) ∧
        app2.pipes = (app1.pipes.map shiftPipe).drop d ++ spawned)) := by
  have hord : pipesOrdered (W : ℚ) app1.pipes :=
    run_pipesOrdered W inputs app (by rw [hempty]; exact pipesOrdered_nil _) hin app1 hrun
  exact ⟨hord.1, hord.2, fun h r app2 hstep => SDL_AppIterate_pipes app1 app2 W h r hstep⟩

/-- C9 at the default window: the frame that brings the counter to 200 appends
the first pipe at x = 400 to the empty stream. -/
theorem stream_fifo_witness :
    run beforeSpawn [Input.frame 400 350 0] = some afterSpawn ∧
    afterSpawn.pipes = [defaultPipe] ∧
    List.Pairwise (fun p q => p.x_bot_loc < q.x_bot_loc) afterSpawn.pipes ∧
    (∀ p ∈ afterSpawn.pipes, p.x_top_loc = p.x_bot_loc ∧
      ∃ age : ℕ, p.x_bot_loc = ((400 : Int) : ℚ) - 2 * (age : ℚ)) :=
  ⟨run_beforeSpawn_frame, rfl,
    (stream_fifo 400 beforeSpawn rfl [Input.frame 400 350 0] (by decide) afterSpawn
      run_beforeSpawn_frame).1,
    (stream_fifo 400 beforeSpawn rfl [Input.frame 400 350 0] (by decide) afterSpawn
      run_beforeSpawn_frame).2.1⟩

/-! ## Cloud placement (C8) -/

theorem isOverlapping_false (rsq : ℚ) (pt : SDL_FPoint) (centers : List SDL_FPoint)
    (h : isOverlapping rsq pt centers = false) :
    ∀ c ∈ centers, rsq ≤ (c.x - pt.x) * (c.x - pt.x) + (c.y - pt.y) * (c.y - pt.y) := by
  induction centers with
  | nil => intro c hc; exact absurd hc (List.not_mem_nil _)
  | cons c0 rest ih =>
    unfold isOverlapping at h
    simp only at h
    split at h
    · exact Bool.noConfusion h
    · rename_i hnot
      intro c hc
      rcases List.mem_cons.mp hc with rfl | hc1
      · exact not_lt.mp hnot
      · exact ih h c hc1

theorem cloudLoop_apart (W H : Int) (rsq : ℚ) (numClouds : Int) (n : ℕ) :
    ∀ (draws : List Nat) (cur : Int) (centers result : List SDL_FPoint),
      draws.length ≤ n →
      List.Pairwise
        (fun c1 c2 => rsq ≤ (c1.x - c2.x) * (c1.x - c2.x) + (c1.y - c2.y) * (c1.y - c2.y))
        centers →
      (centers.length : Int) = cur →
      cloudLoop W H rsq numClouds draws cur centers = some result →
      List.Pairwise
        (fun c1 c2 => rsq ≤ (c1.x - c2.x) * (c1.x - c2.x) + (c1.y - c2.y) * (c1.y - c2.y))
        result ∧ (result.length : Int) = numClouds := by
  induction n with
  | zero =>
    intro draws cur centers result hlen hpw hcount hloop
    have hnil : draws = [] := List.length_eq_zero.mp (Nat.le_zero.mp hlen)
    subst hnil
    unfold cloudLoop at hloop
    split at hloop
    · cases hloop
      rename_i hcur
      exact ⟨hpw, hcount.trans hcur⟩
    · exact Option.noConfusion hloop
  | succ n ih =>
    intro draws cur centers result hlen hpw hcount hloop
    match draws, hlen with
    | [], _ =>
      unfold cloudLoop at hloop
      split at hloop
      · cases hloop
        rename_i hcur
        exact ⟨hpw, hcount.trans hcur⟩
      · exact Option.noConfusion hloop
    | [_], _ =>
      unfold cloudLoop at hloop
      split at hloop
      · cases hloop
        rename_i hcur
        exact ⟨hpw, hcount.trans hcur⟩
      · exact Option.noConfusion hloop
    | rx :: ry :: rest, hlen =>
      have hrest : rest.length ≤ n := by
        simp only [List.length_cons] at hlen
        omega
      unfold cloudLoop at hloop
      split at hloop
      · cases hloop
        rename_i hcur
        exact ⟨hpw, hcount.trans hcur⟩
      · split at hloop
        · rename_i px py hpx hpy
          simp only at hloop
          split at hloop
          · exact ih rest cur centers result hrest hpw hcount hloop
          · rename_i hover
            have hfalse : isOverlapping rsq { x := (px : ℚ), y := (py : ℚ) } centers = false := by
              simpa using hover
            have hfar := isOverlapping_false rsq _ centers hfalse
            apply ih rest (cur + 1) (centers ++ [{ x := (px : ℚ), y := (py : ℚ) }]) result
              hrest _ _ hloop
            · rw [List.pairwise_append]
              refine ⟨hpw, List.pairwise_singleton _ _, ?_⟩
              intro a ha b hb
              rw [List.mem_singleton] at hb
              subst hb
              exact hfar a ha
            · rw [List.length_append, List.length_singleton]
              push_cast
              omega
        · exact Option.noConfusion hloop

/-- C8. When `GenerateClouds` completes on an empty cloud list, whatever the
viewport, the bird's width and the draws, every two of the cloud points it has
placed (taken in the order of placement, so every pair of distinct entries) have
squared distance at least `15 * width * width`, and it has placed 2 or 3 of
them. -/
theorem clouds_apart (app : AppContext) (hempty : app.cloudCenters = [])
    (app_width app_height : Int) (draws : List Nat) (app1 : AppContext)
    (hgen : GenerateClouds app app_width app_height draws = some app1) :
    List.Pairwise
      (fun c1 c2 =>
        15 * app.bird.width * app.bird.width ≤
          (c1.x - c2.x) * (c1.x - c2.x) + (c1.y - c2.y) * (c1.y - c2.y))
      app1.cloudCenters ∧
    (app1.cloudCenters.length = 2 ∨ app1.cloudCenters.length = 3) := by
  cases draws with
  | nil => exact Option.noConfusion hgen
  | cons r0 rest =>
    unfold GenerateClouds at hgen
    simp only at hgen
    split at hgen
    · exact Option.noConfusion hgen
    · rename_i centers hloop
      cases hgen
      rw [hempty] at hloop
      obtain ⟨hpw, hlen⟩ := cloudLoop_apart app_width app_height _ _ rest.length rest 0 []
        centers (le_refl _) List.Pairwise.nil rfl hloop
      refine ⟨hpw, ?_⟩
      have h0 : 0 ≤ Int.tmod (r0 : Int) 2 := Int.tmod_nonneg 2 (Int.ofNat_nonneg r0)
      have h1 : Int.tmod (r0 : Int) 2 < 2 := Int.tmod_lt_of_pos _ (by decide)
      show centers.length = 2 ∨ centers.length = 3
      omega

theorem GenerateClouds_default :
    GenerateClouds defaultStart 400 350 cloudDraws =
      some { defaultStart with cloudCenters := defaultClouds } := by
  have h10 : Int.tmod ((10 : Nat) : Int) 400 = 10 := by decide
  have h15 : Int.tmod ((15 : Nat) : Int) 400 = 15 := by decide
  have h300 : Int.tmod ((300 : Nat) : Int) 400 = 300 := by decide
  have hH : Int.tdiv 350 4 * 3 = 261 := by decide
  have h20 : Int.tmod ((20 : Nat) : Int) 261 = 20 := by decide
  have h25 : Int.tmod ((25 : Nat) : Int) 261 = 25 := by decide
  have h100 : Int.tmod ((100 : Nat) : Int) 261 = 100 := by decide
  have h0 : (2 : Int) + Int.tmod ((0 : Nat) : Int) 2 = 2 := by decide
  simp only [GenerateClouds, cloudDraws, h0, cloudLoop, cMod, hH, h10, h15, h300, h20, h25, h100]
  norm_num [isOverlapping, defaultStart, startContext, defaultClouds]

/-- C8 at the default start state: on the draws `cloudDraws` the run completes
with the two clouds (10, 20) and (300, 100), the candidate (15, 25) having been
rejected, and the two are at least `15 * 30 * 30` apart in squared distance. -/
theorem clouds_apart_witness :
    GenerateClouds defaultStart 400 350 cloudDraws =
      some { defaultStart with cloudCenters := defaultClouds } ∧
    List.Pairwise
      (fun c1 c2 =>
        15 * defaultStart.bird.width * defaultStart.bird.width ≤
          (c1.x - c2.x) * (c1.x - c2.x) + (c1.y - c2.y) * (c1.y - c2.y))
      defaultClouds ∧
    (defaultClouds.length = 2 ∨ defaultClouds.length = 3) :=
  ⟨GenerateClouds_default,
    clouds_apart defaultStart rfl 400 350 cloudDraws
      { defaultStart with cloudCenters := defaultClouds } GenerateClouds_default⟩

/-! ## The flap timer across a reset (C11) -/

theorem reset_keeps_flap (app : AppContext) (app_width app_height : Int) :
    (SDL_AppEvent app (SDL_Event.SDL_EVENT_KEY_DOWN SDL_Keycode.SDLK_R)
        app_width app_height).2.bird.flapTimer = app.bird.flapTimer ∧
    (SDL_AppEvent app (SDL_Event.SDL_EVENT_KEY_DOWN SDL_Keycode.SDLK_R)
        app_width app_height).2.bird.isFlapping = app.bird.isFlapping := by
  unfold SDL_AppEvent
  simp only
  split <;> exact ⟨rfl, rfl⟩

theorem tmod_286_FRAMES_PER_PIPE : Int.tmod 286 FRAMES_PER_PIPE = 86 := by decide

theorem run_midFlap_frame : run midFlap [Input.frame 400 350 0] = some diedMidFlap := by
  norm_num [run, SDL_AppIterate, midFlap, diedMidFlap, UpdateBirdInfo, UpdatePipeLocations,
    nextFrameNumber, INT_MAX, moveBird, groundCheck, pipeCheck, BirdPipeCollision,
    scrollPipes, shiftPipe, crossesMiddle, retireFront, PIXELS_FLAPPED_MULTIPLIER,
    PIXELS_MOVED_PER_FRAME_PIPES, tmod_286_FRAMES_PER_PIPE]

/-- C11 does not hold of the code. A bird of the default window that dies in the
middle of a flap (one frame from `midFlap`, `flapTimer = 10`, flapping) is, after
the reset input, re-centred at (200, 175) and alive, but its flap timer is still
10 and it is still in flapping mode, while the start state has timer 0 and
falling mode; the next frame carries on the flap of the previous life and lifts
the restarted bird by `0.9 * 9` to 166.9. -/
theorem reset_flapTimer_not_reset :
    run midFlap [Input.frame 400 350 0] = some diedMidFlap ∧
    diedMidFlap.bird.isDead = true ∧ diedMidFlap.bird.flapTimer = 10 ∧
    SDL_AppEvent diedMidFlap (SDL_Event.SDL_EVENT_KEY_DOWN SDL_Keycode.SDLK_R) 400 350 =
      (SDL_AppResult.SDL_APP_CONTINUE, restarted) ∧
    restarted.bird.x_loc = 200 ∧ restarted.bird.y_loc = 175 ∧
    restarted.bird.isDead = false ∧
    restarted.bird.flapTimer = 10 ∧ restarted.bird.isFlapping = true ∧
    (startContext 400 350 30 20 (35 / 2)).bird.flapTimer = 0 ∧
    (startContext 400 350 30 20 (35 / 2)).bird.isFlapping = false ∧
    (∃ app1, run restarted [Input.frame 400 350 0] = some app1 ∧
      app1.bird.flapTimer = 9 ∧ app1.bird.y_loc = 1669 / 10) := by
  refine ⟨run_midFlap_frame, rfl, rfl, ?_, rfl, rfl, rfl, rfl, rfl, rfl, rfl, ?_⟩
  · norm_num [SDL_AppEvent, diedMidFlap, restarted]
  · refine ⟨{ restarted with
        frameNumber := 1
        bird := { restarted.bird with flapTimer := 9, y_loc := 1669 / 10 } }, ?_, rfl, rfl⟩
    norm_num [run, SDL_AppIterate, restarted, UpdateBirdInfo, UpdatePipeLocations,
      nextFrameNumber, INT_MAX, moveBird, groundCheck, pipeCheck, scrollPipes, retireFront,
      PIXELS_FLAPPED_MULTIPLIER, tmod_one_FRAMES_PER_PIPE]

end BirdFlap
